import Mathlib

/- Verification of the feature-visualization toolkit:
   a shallow embedding of src/feat_viz/models/inceptionv1.py and src/torchlight/io.py.

   Tensors are modelled as flat lists of rationals.  Framework numerical kernels
   (convolution, pooling, local-response normalization, softmax, image codecs)
   are not part of the repository; they appear as abstract parameters of the
   semantics, while everything written in the repository itself (the dataflow
   graph, the custom activation, the io helpers) is translated concretely. -/

/-! ## InceptionV1 (src/feat_viz/models/inceptionv1.py) -/

abbrev Tensor := List ℚ

/-- Elementwise F.relu. -/
def reluQ (x : ℚ) : ℚ := max 0 x

/-- ReluLayer.forward: F.relu(tensor). -/
def ReluLayer_forward (t : Tensor) : Tensor := t.map reluQ

/-- RedirectedReLU.forward: input_tensor.clamp(min=0), elementwise max with the lower bound. -/
def RedirectedReLU_forward (t : Tensor) : Tensor := t.map fun x => max x 0

/-- RedirectedReLU.backward: grad_input = grad_output.clone();
    grad_input[input_tensor < 0] = grad_input[input_tensor < 0] * 1e-1. -/
def RedirectedReLU_backward (input grad : List ℚ) : List ℚ :=
  List.zipWith (fun x g => if x < 0 then g * (1 / 10) else g) input grad

/-- The set where the gradient of the standard ReLU vanishes: the points where
    ReLU is locally constant (its two-sided derivative exists and is zero). -/
def reluGradVanishesAt (x : ℚ) : Prop :=
  ∃ δ : ℚ, 0 < δ ∧ ∀ y : ℚ, |y - x| < δ → reluQ y = reluQ x

/-- The two relu-layer classes selectable in InceptionV1.add_layers. -/
inductive ActClass
  | redirectedReluLayer
  | reluLayer
deriving DecidableEq

/-- forward of the two relu-layer classes. -/
def ActClass.fwd : ActClass → Tensor → Tensor
  | .redirectedReluLayer => RedirectedReLU_forward
  | .reluLayer => ReluLayer_forward

/-- Module classes assigned as attributes by InceptionV1.add_layers. -/
inductive LayerKind
  | relu (cls : ActClass)
  | maxPool2dL
  | catL
  | softMaxL
deriving DecidableEq

/-- nn.Conv2d declaration: in_channels, out_channels, kernel_size, stride, groups, bias. -/
structure ConvSpec where
  inChannels : ℕ
  outChannels : ℕ
  kernel : ℕ × ℕ
  stride : ℕ × ℕ
  groups : ℕ
  bias : Bool
deriving DecidableEq

/-- nn.Linear declaration: in_features, out_features, bias. -/
structure LinearSpec where
  inFeatures : ℕ
  outFeatures : ℕ
  bias : Bool
deriving DecidableEq

/- The convolution declarations of InceptionV1.__init__ (fields in the order
   in_channels, out_channels, kernel_size, stride, groups, bias). -/

def conv2d0_pre_relu_conv : ConvSpec := ⟨3, 64, (7, 7), (2, 2), 1, true⟩

def conv2d1_pre_relu_conv : ConvSpec := ⟨64, 64, (1, 1), (1, 1), 1, true⟩

def conv2d2_pre_relu_conv : ConvSpec := ⟨64, 192, (3, 3), (1, 1), 1, true⟩

def mixed3a_1x1_pre_relu_conv : ConvSpec := ⟨192, 64, (1, 1), (1, 1), 1, true⟩

def mixed3a_3x3_bottleneck_pre_relu_conv : ConvSpec := ⟨192, 96, (1, 1), (1, 1), 1, true⟩

def mixed3a_5x5_bottleneck_pre_relu_conv : ConvSpec := ⟨192, 16, (1, 1), (1, 1), 1, true⟩

def mixed3a_pool_reduce_pre_relu_conv : ConvSpec := ⟨192, 32, (1, 1), (1, 1), 1, true⟩

def mixed3a_3x3_pre_relu_conv : ConvSpec := ⟨96, 128, (3, 3), (1, 1), 1, true⟩

def mixed3a_5x5_pre_relu_conv : ConvSpec := ⟨16, 32, (5, 5), (1, 1), 1, true⟩

def mixed3b_1x1_pre_relu_conv : ConvSpec := ⟨256, 128, (1, 1), (1, 1), 1, true⟩

def mixed3b_3x3_bottleneck_pre_relu_conv : ConvSpec := ⟨256, 128, (1, 1), (1, 1), 1, true⟩

def mixed3b_5x5_bottleneck_pre_relu_conv : ConvSpec := ⟨256, 32, (1, 1), (1, 1), 1, true⟩

def mixed3b_pool_reduce_pre_relu_conv : ConvSpec := ⟨256, 64, (1, 1), (1, 1), 1, true⟩

def mixed3b_3x3_pre_relu_conv : ConvSpec := ⟨128, 192, (3, 3), (1, 1), 1, true⟩

def mixed3b_5x5_pre_relu_conv : ConvSpec := ⟨32, 96, (5, 5), (1, 1), 1, true⟩

def mixed4a_1x1_pre_relu_conv : ConvSpec := ⟨480, 192, (1, 1), (1, 1), 1, true⟩

def mixed4a_3x3_bottleneck_pre_relu_conv : ConvSpec := ⟨480, 96, (1, 1), (1, 1), 1, true⟩

def mixed4a_5x5_bottleneck_pre_relu_conv : ConvSpec := ⟨480, 16, (1, 1), (1, 1), 1, true⟩

def mixed4a_pool_reduce_pre_relu_conv : ConvSpec := ⟨480, 64, (1, 1), (1, 1), 1, true⟩

def mixed4a_3x3_pre_relu_conv : ConvSpec := ⟨96, 204, (3, 3), (1, 1), 1, true⟩

def mixed4a_5x5_pre_relu_conv : ConvSpec := ⟨16, 48, (5, 5), (1, 1), 1, true⟩

def mixed4b_1x1_pre_relu_conv : ConvSpec := ⟨508, 160, (1, 1), (1, 1), 1, true⟩

def mixed4b_3x3_bottleneck_pre_relu_conv : ConvSpec := ⟨508, 112, (1, 1), (1, 1), 1, true⟩

def mixed4b_5x5_bottleneck_pre_relu_conv : ConvSpec := ⟨508, 24, (1, 1), (1, 1), 1, true⟩

def mixed4b_pool_reduce_pre_relu_conv : ConvSpec := ⟨508, 64, (1, 1), (1, 1), 1, true⟩

def mixed4b_3x3_pre_relu_conv : ConvSpec := ⟨112, 224, (3, 3), (1, 1), 1, true⟩

def mixed4b_5x5_pre_relu_conv : ConvSpec := ⟨24, 64, (5, 5), (1, 1), 1, true⟩

def mixed4c_1x1_pre_relu_conv : ConvSpec := ⟨512, 128, (1, 1), (1, 1), 1, true⟩

def mixed4c_3x3_bottleneck_pre_relu_conv : ConvSpec := ⟨512, 128, (1, 1), (1, 1), 1, true⟩

def mixed4c_5x5_bottleneck_pre_relu_conv : ConvSpec := ⟨512, 24, (1, 1), (1, 1), 1, true⟩

def mixed4c_pool_reduce_pre_relu_conv : ConvSpec := ⟨512, 64, (1, 1), (1, 1), 1, true⟩

def mixed4c_3x3_pre_relu_conv : ConvSpec := ⟨128, 256, (3, 3), (1, 1), 1, true⟩

def mixed4c_5x5_pre_relu_conv : ConvSpec := ⟨24, 64, (5, 5), (1, 1), 1, true⟩

def mixed4d_1x1_pre_relu_conv : ConvSpec := ⟨512, 112, (1, 1), (1, 1), 1, true⟩

def mixed4d_3x3_bottleneck_pre_relu_conv : ConvSpec := ⟨512, 144, (1, 1), (1, 1), 1, true⟩

def mixed4d_5x5_bottleneck_pre_relu_conv : ConvSpec := ⟨512, 32, (1, 1), (1, 1), 1, true⟩

def mixed4d_pool_reduce_pre_relu_conv : ConvSpec := ⟨512, 64, (1, 1), (1, 1), 1, true⟩

def mixed4d_3x3_pre_relu_conv : ConvSpec := ⟨144, 288, (3, 3), (1, 1), 1, true⟩

def mixed4d_5x5_pre_relu_conv : ConvSpec := ⟨32, 64, (5, 5), (1, 1), 1, true⟩

def mixed4e_1x1_pre_relu_conv : ConvSpec := ⟨528, 256, (1, 1), (1, 1), 1, true⟩

def mixed4e_3x3_bottleneck_pre_relu_conv : ConvSpec := ⟨528, 160, (1, 1), (1, 1), 1, true⟩

def mixed4e_5x5_bottleneck_pre_relu_conv : ConvSpec := ⟨528, 32, (1, 1), (1, 1), 1, true⟩

def mixed4e_pool_reduce_pre_relu_conv : ConvSpec := ⟨528, 128, (1, 1), (1, 1), 1, true⟩

def mixed4e_3x3_pre_relu_conv : ConvSpec := ⟨160, 320, (3, 3), (1, 1), 1, true⟩

def mixed4e_5x5_pre_relu_conv : ConvSpec := ⟨32, 128, (5, 5), (1, 1), 1, true⟩

def mixed5a_1x1_pre_relu_conv : ConvSpec := ⟨832, 256, (1, 1), (1, 1), 1, true⟩

def mixed5a_3x3_bottleneck_pre_relu_conv : ConvSpec := ⟨832, 160, (1, 1), (1, 1), 1, true⟩

def mixed5a_5x5_bottleneck_pre_relu_conv : ConvSpec := ⟨832, 48, (1, 1), (1, 1), 1, true⟩

def mixed5a_pool_reduce_pre_relu_conv : ConvSpec := ⟨832, 128, (1, 1), (1, 1), 1, true⟩

def mixed5a_3x3_pre_relu_conv : ConvSpec := ⟨160, 320, (3, 3), (1, 1), 1, true⟩

def mixed5a_5x5_pre_relu_conv : ConvSpec := ⟨48, 128, (5, 5), (1, 1), 1, true⟩

def mixed5b_1x1_pre_relu_conv : ConvSpec := ⟨832, 384, (1, 1), (1, 1), 1, true⟩

def mixed5b_3x3_bottleneck_pre_relu_conv : ConvSpec := ⟨832, 192, (1, 1), (1, 1), 1, true⟩

def mixed5b_5x5_bottleneck_pre_relu_conv : ConvSpec := ⟨832, 48, (1, 1), (1, 1), 1, true⟩

def mixed5b_pool_reduce_pre_relu_conv : ConvSpec := ⟨832, 128, (1, 1), (1, 1), 1, true⟩

def mixed5b_3x3_pre_relu_conv : ConvSpec := ⟨192, 384, (3, 3), (1, 1), 1, true⟩

def mixed5b_5x5_pre_relu_conv : ConvSpec := ⟨48, 128, (5, 5), (1, 1), 1, true⟩

def softmax2_pre_activation_matmul : LinearSpec := ⟨1024, 1008, true⟩

/-- The relu class picked at the top of add_layers. -/
def chooseRelu (redirected_ReLU : Bool) : ActClass :=
  if redirected_ReLU then .redirectedReluLayer else .reluLayer

/-- InceptionV1.add_layers: the module attributes assigned, in source order. -/
def add_layers (redirected_ReLU : Bool) : List (String × LayerKind) :=
  let relu := LayerKind.relu (chooseRelu redirected_ReLU)
  [("conv2d0", relu),
   ("maxpool0", .maxPool2dL),
   ("conv2d1", relu),
   ("conv2d2", relu),
   ("maxpool1", .maxPool2dL),
   ("mixed3a_pool", .maxPool2dL),
   ("mixed3a_1x1", relu),
   ("mixed3a_3x3_bottleneck", relu),
   ("mixed3a_5x5_bottleneck", relu),
   ("mixed3a_pool_reduce", relu),
   ("mixed3a_3x3", relu),
   ("mixed3a_5x5", relu),
   ("mixed3a", .catL),
   ("mixed3b_pool", .maxPool2dL),
   ("mixed3b_1x1", relu),
   ("mixed3b_3x3_bottleneck", relu),
   ("mixed3b_5x5_bottleneck", relu),
   ("mixed3b_pool_reduce", relu),
   ("mixed3b_3x3", relu),
   ("mixed3b_5x5", relu),
   ("mixed3b", .catL),
   ("maxpool4", .maxPool2dL),
   ("mixed4a_pool", .maxPool2dL),
   ("mixed4a_1x1", relu),
   ("mixed4a_3x3_bottleneck", relu),
   ("mixed4a_5x5_bottleneck", relu),
   ("mixed4a_pool_reduce", relu),
   ("mixed4a_3x3", relu),
   ("mixed4a_5x5", relu),
   ("mixed4a", .catL),
   ("mixed4b_pool", .maxPool2dL),
   ("mixed4b_1x1", relu),
   ("mixed4b_3x3_bottleneck", relu),
   ("mixed4b_5x5_bottleneck", relu),
   ("mixed4b_pool_reduce", relu),
   ("mixed4b_3x3", relu),
   ("mixed4b_5x5", relu),
   ("mixed4b", .catL),
   ("mixed4c_pool", .maxPool2dL),
   ("mixed4c_1x1", relu),
   ("mixed4c_3x3_bottleneck", relu),
   ("mixed4c_5x5_bottleneck", relu),
   ("mixed4c_pool_reduce", relu),
   ("mixed4c_3x3", relu),
   ("mixed4c_5x5", relu),
   ("mixed4c", .catL),
   ("mixed4d_pool", .maxPool2dL),
   ("mixed4d_1x1", relu),
   ("mixed4d_3x3_bottleneck", relu),
   ("mixed4d_5x5_bottleneck", relu),
   ("mixed4d_pool_reduce", relu),
   ("mixed4d_3x3", relu),
   ("mixed4d_5x5", relu),
   ("mixed4d", .catL),
   ("mixed4e_pool", .maxPool2dL),
   ("mixed4e_1x1", relu),
   ("mixed4e_3x3_bottleneck", relu),
   ("mixed4e_5x5_bottleneck", relu),
   ("mixed4e_pool_reduce", relu),
   ("mixed4e_3x3", relu),
   ("mixed4e_5x5", relu),
   ("mixed4e", .catL),
   ("maxpool10", .maxPool2dL),
   ("mixed5a_pool", .maxPool2dL),
   ("mixed5a_1x1", relu),
   ("mixed5a_3x3_bottleneck", relu),
   ("mixed5a_5x5_bottleneck", relu),
   ("mixed5a_pool_reduce", relu),
   ("mixed5a_3x3", relu),
   ("mixed5a_5x5", relu),
   ("mixed5a", .catL),
   ("mixed5b_pool", .maxPool2dL),
   ("mixed5b_1x1", relu),
   ("mixed5b_3x3_bottleneck", relu),
   ("mixed5b_5x5_bottleneck", relu),
   ("mixed5b_pool_reduce", relu),
   ("mixed5b_3x3", relu),
   ("mixed5b_5x5", relu),
   ("mixed5b", .catL),
   ("softmax2", .softMaxL)]

/-- Padding value passed to F.pad: either absent, float("-inf"), or a number. -/
inductive EVal
  | negInf
  | val (q : ℚ)
deriving DecidableEq

/-- One tensor operation of the forward pass, with its argument variables. -/
inductive Op
  | pad (p : ℕ × ℕ × ℕ × ℕ) (value : Option EVal) (src : String)
  | conv (c : ConvSpec) (src : String)
  | act (src : String)
  | maxpool (kernel stride : ℕ × ℕ) (padding : ℕ) (ceilMode : Bool) (src : String)
  | lrn (size : ℕ) (alpha beta k : ℚ) (src : String)
  | catOp (srcs : List String) (dim : ℕ)
  | avgpool (kernel stride : ℕ × ℕ) (padding : List ℕ) (ceilMode countIncludePad : Bool)
      (src : String)
  | reshape (shape : ℤ × ℤ) (src : String)
  | linear (l : LinearSpec) (src : String)
  | softmaxOp (dim : ℕ) (src : String)
deriving DecidableEq

/-- alpha=9.99999974738e-05 of the two local_response_norm calls. -/
def lrnAlpha : ℚ := 999999974738 / 10 ^ 16

def fgStem : List (String × Op) :=
  [("conv2d0_pre_relu_conv_pad", .pad (2, 3, 2, 3) none "x"),
   ("conv2d0_pre_relu_conv", .conv conv2d0_pre_relu_conv "conv2d0_pre_relu_conv_pad"),
   ("conv2d0", .act "conv2d0_pre_relu_conv"),
   ("maxpool0_pad", .pad (0, 1, 0, 1) (some .negInf) "conv2d0"),
   ("maxpool0", .maxpool (3, 3) (2, 2) 0 false "maxpool0_pad"),
   ("localresponsenorm0", .lrn 9 lrnAlpha (1 / 2) 1 "maxpool0"),
   ("conv2d1_pre_relu_conv", .conv conv2d1_pre_relu_conv "localresponsenorm0"),
   ("conv2d1", .act "conv2d1_pre_relu_conv"),
   ("conv2d2_pre_relu_conv_pad", .pad (1, 1, 1, 1) none "conv2d1"),
   ("conv2d2_pre_relu_conv", .conv conv2d2_pre_relu_conv "conv2d2_pre_relu_conv_pad"),
   ("conv2d2", .act "conv2d2_pre_relu_conv"),
   ("localresponsenorm1", .lrn 9 lrnAlpha (1 / 2) 1 "conv2d2"),
   ("maxpool1_pad", .pad (0, 1, 0, 1) (some .negInf) "localresponsenorm1"),
   ("maxpool1", .maxpool (3, 3) (2, 2) 0 false "maxpool1_pad")]


def fgMixed3a : List (String × Op) :=
  [("mixed3a_1x1_pre_relu_conv", .conv mixed3a_1x1_pre_relu_conv "maxpool1"),
   ("mixed3a_3x3_bottleneck_pre_relu_conv", .conv mixed3a_3x3_bottleneck_pre_relu_conv "maxpool1"),
   ("mixed3a_5x5_bottleneck_pre_relu_conv", .conv mixed3a_5x5_bottleneck_pre_relu_conv "maxpool1"),
   ("mixed3a_pool_pad", .pad (1, 1, 1, 1) (some .negInf) "maxpool1"),
   ("mixed3a_pool", .maxpool (3, 3) (1, 1) 0 false "mixed3a_pool_pad"),
   ("mixed3a_1x1", .act "mixed3a_1x1_pre_relu_conv"),
   ("mixed3a_3x3_bottleneck", .act "mixed3a_3x3_bottleneck_pre_relu_conv"),
   ("mixed3a_5x5_bottleneck", .act "mixed3a_5x5_bottleneck_pre_relu_conv"),
   ("mixed3a_pool_reduce_pre_relu_conv", .conv mixed3a_pool_reduce_pre_relu_conv "mixed3a_pool"),
   ("mixed3a_3x3_pre_relu_conv_pad", .pad (1, 1, 1, 1) none "mixed3a_3x3_bottleneck"),
   ("mixed3a_3x3_pre_relu_conv", .conv mixed3a_3x3_pre_relu_conv "mixed3a_3x3_pre_relu_conv_pad"),
   ("mixed3a_5x5_pre_relu_conv_pad", .pad (2, 2, 2, 2) none "mixed3a_5x5_bottleneck"),
   ("mixed3a_5x5_pre_relu_conv", .conv mixed3a_5x5_pre_relu_conv "mixed3a_5x5_pre_relu_conv_pad"),
   ("mixed3a_pool_reduce", .act "mixed3a_pool_reduce_pre_relu_conv"),
   ("mixed3a_3x3", .act "mixed3a_3x3_pre_relu_conv"),
   ("mixed3a_5x5", .act "mixed3a_5x5_pre_relu_conv"),
   ("mixed3a", .catOp ["mixed3a_1x1", "mixed3a_3x3", "mixed3a_5x5", "mixed3a_pool_reduce"] 1)]


def fgMixed3b : List (String × Op) :=
  [("mixed3b_1x1_pre_relu_conv", .conv mixed3b_1x1_pre_relu_conv "mixed3a"),
   ("mixed3b_3x3_bottleneck_pre_relu_conv", .conv mixed3b_3x3_bottleneck_pre_relu_conv "mixed3a"),
   ("mixed3b_5x5_bottleneck_pre_relu_conv", .conv mixed3b_5x5_bottleneck_pre_relu_conv "mixed3a"),
   ("mixed3b_pool_pad", .pad (1, 1, 1, 1) (some .negInf) "mixed3a"),
   ("mixed3b_pool", .maxpool (3, 3) (1, 1) 0 false "mixed3b_pool_pad"),
   ("mixed3b_1x1", .act "mixed3b_1x1_pre_relu_conv"),
   ("mixed3b_3x3_bottleneck", .act "mixed3b_3x3_bottleneck_pre_relu_conv"),
   ("mixed3b_5x5_bottleneck", .act "mixed3b_5x5_bottleneck_pre_relu_conv"),
   ("mixed3b_pool_reduce_pre_relu_conv", .conv mixed3b_pool_reduce_pre_relu_conv "mixed3b_pool"),
   ("mixed3b_3x3_pre_relu_conv_pad", .pad (1, 1, 1, 1) none "mixed3b_3x3_bottleneck"),
   ("mixed3b_3x3_pre_relu_conv", .conv mixed3b_3x3_pre_relu_conv "mixed3b_3x3_pre_relu_conv_pad"),
   ("mixed3b_5x5_pre_relu_conv_pad", .pad (2, 2, 2, 2) none "mixed3b_5x5_bottleneck"),
   ("mixed3b_5x5_pre_relu_conv", .conv mixed3b_5x5_pre_relu_conv "mixed3b_5x5_pre_relu_conv_pad"),
   ("mixed3b_pool_reduce", .act "mixed3b_pool_reduce_pre_relu_conv"),
   ("mixed3b_3x3", .act "mixed3b_3x3_pre_relu_conv"),
   ("mixed3b_5x5", .act "mixed3b_5x5_pre_relu_conv"),
   ("mixed3b", .catOp ["mixed3b_1x1", "mixed3b_3x3", "mixed3b_5x5", "mixed3b_pool_reduce"] 1)]


def fgMaxpool4 : List (String × Op) :=
  [("maxpool4_pad", .pad (0, 1, 0, 1) (some .negInf) "mixed3b"),
   ("maxpool4", .maxpool (3, 3) (2, 2) 0 false "maxpool4_pad")]


def fgMixed4a : List (String × Op) :=
  [("mixed4a_1x1_pre_relu_conv", .conv mixed4a_1x1_pre_relu_conv "maxpool4"),
   ("mixed4a_3x3_bottleneck_pre_relu_conv", .conv mixed4a_3x3_bottleneck_pre_relu_conv "maxpool4"),
   ("mixed4a_5x5_bottleneck_pre_relu_conv", .conv mixed4a_5x5_bottleneck_pre_relu_conv "maxpool4"),
   ("mixed4a_pool_pad", .pad (1, 1, 1, 1) (some .negInf) "maxpool4"),
   ("mixed4a_pool", .maxpool (3, 3) (1, 1) 0 false "mixed4a_pool_pad"),
   ("mixed4a_1x1", .act "mixed4a_1x1_pre_relu_conv"),
   ("mixed4a_3x3_bottleneck", .act "mixed4a_3x3_bottleneck_pre_relu_conv"),
   ("mixed4a_5x5_bottleneck", .act "mixed4a_5x5_bottleneck_pre_relu_conv"),
   ("mixed4a_pool_reduce_pre_relu_conv", .conv mixed4a_pool_reduce_pre_relu_conv "mixed4a_pool"),
   ("mixed4a_3x3_pre_relu_conv_pad", .pad (1, 1, 1, 1) none "mixed4a_3x3_bottleneck"),
   ("mixed4a_3x3_pre_relu_conv", .conv mixed4a_3x3_pre_relu_conv "mixed4a_3x3_pre_relu_conv_pad"),
   ("mixed4a_5x5_pre_relu_conv_pad", .pad (2, 2, 2, 2) none "mixed4a_5x5_bottleneck"),
   ("mixed4a_5x5_pre_relu_conv", .conv mixed4a_5x5_pre_relu_conv "mixed4a_5x5_pre_relu_conv_pad"),
   ("mixed4a_pool_reduce", .act "mixed4a_pool_reduce_pre_relu_conv"),
   ("mixed4a_3x3", .act "mixed4a_3x3_pre_relu_conv"),
   ("mixed4a_5x5", .act "mixed4a_5x5_pre_relu_conv"),
   ("mixed4a", .catOp ["mixed4a_1x1", "mixed4a_3x3", "mixed4a_5x5", "mixed4a_pool_reduce"] 1)]


def fgMixed4b : List (String × Op) :=
  [("mixed4b_1x1_pre_relu_conv", .conv mixed4b_1x1_pre_relu_conv "mixed4a"),
   ("mixed4b_3x3_bottleneck_pre_relu_conv", .conv mixed4b_3x3_bottleneck_pre_relu_conv "mixed4a"),
   ("mixed4b_5x5_bottleneck_pre_relu_conv", .conv mixed4b_5x5_bottleneck_pre_relu_conv "mixed4a"),
   ("mixed4b_pool_pad", .pad (1, 1, 1, 1) (some .negInf) "mixed4a"),
   ("mixed4b_pool", .maxpool (3, 3) (1, 1) 0 false "mixed4b_pool_pad"),
   ("mixed4b_1x1", .act "mixed4b_1x1_pre_relu_conv"),
   ("mixed4b_3x3_bottleneck", .act "mixed4b_3x3_bottleneck_pre_relu_conv"),
   ("mixed4b_5x5_bottleneck", .act "mixed4b_5x5_bottleneck_pre_relu_conv"),
   ("mixed4b_pool_reduce_pre_relu_conv", .conv mixed4b_pool_reduce_pre_relu_conv "mixed4b_pool"),
   ("mixed4b_3x3_pre_relu_conv_pad", .pad (1, 1, 1, 1) none "mixed4b_3x3_bottleneck"),
   ("mixed4b_3x3_pre_relu_conv", .conv mixed4b_3x3_pre_relu_conv "mixed4b_3x3_pre_relu_conv_pad"),
   ("mixed4b_5x5_pre_relu_conv_pad", .pad (2, 2, 2, 2) none "mixed4b_5x5_bottleneck"),
   ("mixed4b_5x5_pre_relu_conv", .conv mixed4b_5x5_pre_relu_conv "mixed4b_5x5_pre_relu_conv_pad"),
   ("mixed4b_pool_reduce", .act "mixed4b_pool_reduce_pre_relu_conv"),
   ("mixed4b_3x3", .act "mixed4b_3x3_pre_relu_conv"),
   ("mixed4b_5x5", .act "mixed4b_5x5_pre_relu_conv"),
   ("mixed4b", .catOp ["mixed4b_1x1", "mixed4b_3x3", "mixed4b_5x5", "mixed4b_pool_reduce"] 1)]


def fgMixed4c : List (String × Op) :=
  [("mixed4c_1x1_pre_relu_conv", .conv mixed4c_1x1_pre_relu_conv "mixed4b"),
   ("mixed4c_3x3_bottleneck_pre_relu_conv", .conv mixed4c_3x3_bottleneck_pre_relu_conv "mixed4b"),
   ("mixed4c_5x5_bottleneck_pre_relu_conv", .conv mixed4c_5x5_bottleneck_pre_relu_conv "mixed4b"),
   ("mixed4c_pool_pad", .pad (1, 1, 1, 1) (some .negInf) "mixed4b"),
   ("mixed4c_pool", .maxpool (3, 3) (1, 1) 0 false "mixed4c_pool_pad"),
   ("mixed4c_1x1", .act "mixed4c_1x1_pre_relu_conv"),
   ("mixed4c_3x3_bottleneck", .act "mixed4c_3x3_bottleneck_pre_relu_conv"),
   ("mixed4c_5x5_bottleneck", .act "mixed4c_5x5_bottleneck_pre_relu_conv"),
   ("mixed4c_pool_reduce_pre_relu_conv", .conv mixed4c_pool_reduce_pre_relu_conv "mixed4c_pool"),
   ("mixed4c_3x3_pre_relu_conv_pad", .pad (1, 1, 1, 1) none "mixed4c_3x3_bottleneck"),
   ("mixed4c_3x3_pre_relu_conv", .conv mixed4c_3x3_pre_relu_conv "mixed4c_3x3_pre_relu_conv_pad"),
   ("mixed4c_5x5_pre_relu_conv_pad", .pad (2, 2, 2, 2) none "mixed4c_5x5_bottleneck"),
   ("mixed4c_5x5_pre_relu_conv", .conv mixed4c_5x5_pre_relu_conv "mixed4c_5x5_pre_relu_conv_pad"),
   ("mixed4c_pool_reduce", .act "mixed4c_pool_reduce_pre_relu_conv"),
   ("mixed4c_3x3", .act "mixed4c_3x3_pre_relu_conv"),
   ("mixed4c_5x5", .act "mixed4c_5x5_pre_relu_conv"),
   ("mixed4c", .catOp ["mixed4c_1x1", "mixed4c_3x3", "mixed4c_5x5", "mixed4c_pool_reduce"] 1)]


def fgMixed4d : List (String × Op) :=
  [("mixed4d_1x1_pre_relu_conv", .conv mixed4d_1x1_pre_relu_conv "mixed4c"),
   ("mixed4d_3x3_bottleneck_pre_relu_conv", .conv mixed4d_3x3_bottleneck_pre_relu_conv "mixed4c"),
   ("mixed4d_5x5_bottleneck_pre_relu_conv", .conv mixed4d_5x5_bottleneck_pre_relu_conv "mixed4c"),
   ("mixed4d_pool_pad", .pad (1, 1, 1, 1) (some .negInf) "mixed4c"),
   ("mixed4d_pool", .maxpool (3, 3) (1, 1) 0 false "mixed4d_pool_pad"),
   ("mixed4d_1x1", .act "mixed4d_1x1_pre_relu_conv"),
   ("mixed4d_3x3_bottleneck", .act "mixed4d_3x3_bottleneck_pre_relu_conv"),
   ("mixed4d_5x5_bottleneck", .act "mixed4d_5x5_bottleneck_pre_relu_conv"),
   ("mixed4d_pool_reduce_pre_relu_conv", .conv mixed4d_pool_reduce_pre_relu_conv "mixed4d_pool"),
   ("mixed4d_3x3_pre_relu_conv_pad", .pad (1, 1, 1, 1) none "mixed4d_3x3_bottleneck"),
   ("mixed4d_3x3_pre_relu_conv", .conv mixed4d_3x3_pre_relu_conv "mixed4d_3x3_pre_relu_conv_pad"),
   ("mixed4d_5x5_pre_relu_conv_pad", .pad (2, 2, 2, 2) none "mixed4d_5x5_bottleneck"),
   ("mixed4d_5x5_pre_relu_conv", .conv mixed4d_5x5_pre_relu_conv "mixed4d_5x5_pre_relu_conv_pad"),
   ("mixed4d_pool_reduce", .act "mixed4d_pool_reduce_pre_relu_conv"),
   ("mixed4d_3x3", .act "mixed4d_3x3_pre_relu_conv"),
   ("mixed4d_5x5", .act "mixed4d_5x5_pre_relu_conv"),
   ("mixed4d", .catOp ["mixed4d_1x1", "mixed4d_3x3", "mixed4d_5x5", "mixed4d_pool_reduce"] 1)]


def fgMixed4e : List (String × Op) :=
  [("mixed4e_1x1_pre_relu_conv", .conv mixed4e_1x1_pre_relu_conv "mixed4d"),
   ("mixed4e_3x3_bottleneck_pre_relu_conv", .conv mixed4e_3x3_bottleneck_pre_relu_conv "mixed4d"),
   ("mixed4e_5x5_bottleneck_pre_relu_conv", .conv mixed4e_5x5_bottleneck_pre_relu_conv "mixed4d"),
   ("mixed4e_pool_pad", .pad (1, 1, 1, 1) (some .negInf) "mixed4d"),
   ("mixed4e_pool", .maxpool (3, 3) (1, 1) 0 false "mixed4e_pool_pad"),
   ("mixed4e_1x1", .act "mixed4e_1x1_pre_relu_conv"),
   ("mixed4e_3x3_bottleneck", .act "mixed4e_3x3_bottleneck_pre_relu_conv"),
   ("mixed4e_5x5_bottleneck", .act "mixed4e_5x5_bottleneck_pre_relu_conv"),
   ("mixed4e_pool_reduce_pre_relu_conv", .conv mixed4e_pool_reduce_pre_relu_conv "mixed4e_pool"),
   ("mixed4e_3x3_pre_relu_conv_pad", .pad (1, 1, 1, 1) none "mixed4e_3x3_bottleneck"),
   ("mixed4e_3x3_pre_relu_conv", .conv mixed4e_3x3_pre_relu_conv "mixed4e_3x3_pre_relu_conv_pad"),
   ("mixed4e_5x5_pre_relu_conv_pad", .pad (2, 2, 2, 2) none "mixed4e_5x5_bottleneck"),
   ("mixed4e_5x5_pre_relu_conv", .conv mixed4e_5x5_pre_relu_conv "mixed4e_5x5_pre_relu_conv_pad"),
   ("mixed4e_pool_reduce", .act "mixed4e_pool_reduce_pre_relu_conv"),
   ("mixed4e_3x3", .act "mixed4e_3x3_pre_relu_conv"),
   ("mixed4e_5x5", .act "mixed4e_5x5_pre_relu_conv"),
   ("mixed4e", .catOp ["mixed4e_1x1", "mixed4e_3x3", "mixed4e_5x5", "mixed4e_pool_reduce"] 1)]


def fgMaxpool10 : List (String × Op) :=
  [("maxpool10_pad", .pad (0, 1, 0, 1) (some .negInf) "mixed4e"),
   ("maxpool10", .maxpool (3, 3) (2, 2) 0 false "maxpool10_pad")]


def fgMixed5a : List (String × Op) :=
  [("mixed5a_1x1_pre_relu_conv", .conv mixed5a_1x1_pre_relu_conv "maxpool10"),
   ("mixed5a_3x3_bottleneck_pre_relu_conv", .conv mixed5a_3x3_bottleneck_pre_relu_conv "maxpool10"),
   ("mixed5a_5x5_bottleneck_pre_relu_conv", .conv mixed5a_5x5_bottleneck_pre_relu_conv "maxpool10"),
   ("mixed5a_pool_pad", .pad (1, 1, 1, 1) (some .negInf) "maxpool10"),
   ("mixed5a_pool", .maxpool (3, 3) (1, 1) 0 false "mixed5a_pool_pad"),
   ("mixed5a_1x1", .act "mixed5a_1x1_pre_relu_conv"),
   ("mixed5a_3x3_bottleneck", .act "mixed5a_3x3_bottleneck_pre_relu_conv"),
   ("mixed5a_5x5_bottleneck", .act "mixed5a_5x5_bottleneck_pre_relu_conv"),
   ("mixed5a_pool_reduce_pre_relu_conv", .conv mixed5a_pool_reduce_pre_relu_conv "mixed5a_pool"),
   ("mixed5a_3x3_pre_relu_conv_pad", .pad (1, 1, 1, 1) none "mixed5a_3x3_bottleneck"),
   ("mixed5a_3x3_pre_relu_conv", .conv mixed5a_3x3_pre_relu_conv "mixed5a_3x3_pre_relu_conv_pad"),
   ("mixed5a_5x5_pre_relu_conv_pad", .pad (2, 2, 2, 2) none "mixed5a_5x5_bottleneck"),
   ("mixed5a_5x5_pre_relu_conv", .conv mixed5a_5x5_pre_relu_conv "mixed5a_5x5_pre_relu_conv_pad"),
   ("mixed5a_pool_reduce", .act "mixed5a_pool_reduce_pre_relu_conv"),
   ("mixed5a_3x3", .act "mixed5a_3x3_pre_relu_conv"),
   ("mixed5a_5x5", .act "mixed5a_5x5_pre_relu_conv"),
   ("mixed5a", .catOp ["mixed5a_1x1", "mixed5a_3x3", "mixed5a_5x5", "mixed5a_pool_reduce"] 1)]


def fgMixed5b : List (String × Op) :=
  [("mixed5b_1x1_pre_relu_conv", .conv mixed5b_1x1_pre_relu_conv "mixed5a"),
   ("mixed5b_3x3_bottleneck_pre_relu_conv", .conv mixed5b_3x3_bottleneck_pre_relu_conv "mixed5a"),
   ("mixed5b_5x5_bottleneck_pre_relu_conv", .conv mixed5b_5x5_bottleneck_pre_relu_conv "mixed5a"),
   ("mixed5b_pool_pad", .pad (1, 1, 1, 1) (some .negInf) "mixed5a"),
   ("mixed5b_pool", .maxpool (3, 3) (1, 1) 0 false "mixed5b_pool_pad"),
   ("mixed5b_1x1", .act "mixed5b_1x1_pre_relu_conv"),
   ("mixed5b_3x3_bottleneck", .act "mixed5b_3x3_bottleneck_pre_relu_conv"),
   ("mixed5b_5x5_bottleneck", .act "mixed5b_5x5_bottleneck_pre_relu_conv"),
   ("mixed5b_pool_reduce_pre_relu_conv", .conv mixed5b_pool_reduce_pre_relu_conv "mixed5b_pool"),
   ("mixed5b_3x3_pre_relu_conv_pad", .pad (1, 1, 1, 1) none "mixed5b_3x3_bottleneck"),
   ("mixed5b_3x3_pre_relu_conv", .conv mixed5b_3x3_pre_relu_conv "mixed5b_3x3_pre_relu_conv_pad"),
   ("mixed5b_5x5_pre_relu_conv_pad", .pad (2, 2, 2, 2) none "mixed5b_5x5_bottleneck"),
   ("mixed5b_5x5_pre_relu_conv", .conv mixed5b_5x5_pre_relu_conv "mixed5b_5x5_pre_relu_conv_pad"),
   ("mixed5b_pool_reduce", .act "mixed5b_pool_reduce_pre_relu_conv"),
   ("mixed5b_3x3", .act "mixed5b_3x3_pre_relu_conv"),
   ("mixed5b_5x5", .act "mixed5b_5x5_pre_relu_conv"),
   ("mixed5b", .catOp ["mixed5b_1x1", "mixed5b_3x3", "mixed5b_5x5", "mixed5b_pool_reduce"] 1)]


def fgTail : List (String × Op) :=
  [("avgpool0", .avgpool (7, 7) (1, 1) [0] false false "mixed5b"),
   ("avgpool0_reshape", .reshape (-1, 1024) "avgpool0"),
   ("softmax2_pre_activation_matmul",
     .linear softmax2_pre_activation_matmul "avgpool0_reshape"),
   ("softmax2", .softmaxOp 1 "softmax2_pre_activation_matmul")]

/-- InceptionV1.forward as a dataflow graph: one entry per assignment, in source
    order; each entry is (assigned variable, operation applied).  "x" is the input.
    The sequence of assignments is split into segments only to keep elaboration
    fast; forwardGraph is their concatenation in source order. -/
def forwardGraph : List (String × Op) :=
  fgStem ++ fgMixed3a ++ fgMixed3b ++ fgMaxpool4 ++ fgMixed4a ++ fgMixed4b ++ fgMixed4c ++ fgMixed4d ++ fgMixed4e ++ fgMaxpool10 ++ fgMixed5a ++ fgMixed5b ++ fgTail

/-- Abstract semantics of the framework primitives used by the forward pass. -/
structure TorchSem where
  padT : (ℕ × ℕ × ℕ × ℕ) → Option EVal → Tensor → Tensor
  conv2dT : ConvSpec → Tensor → Tensor
  maxPool2dT : (ℕ × ℕ) → (ℕ × ℕ) → ℕ → Bool → Tensor → Tensor
  lrnT : ℕ → ℚ → ℚ → ℚ → Tensor → Tensor
  catT : List Tensor → ℕ → Tensor
  avgPool2dT : (ℕ × ℕ) → (ℕ × ℕ) → List ℕ → Bool → Bool → Tensor → Tensor
  reshapeT : ℤ × ℤ → Tensor → Tensor
  linearT : LinearSpec → Tensor → Tensor
  softmaxT : ℕ → Tensor → Tensor

abbrev GEnv := List (String × Tensor)

/-- Evaluate one forward-pass assignment; module calls resolve their attribute
    through the add_layers assignment list. -/
def evalOp (sem : TorchSem) (layers : List (String × LayerKind)) (env : GEnv) :
    String × Op → Option Tensor
  | (_, .pad p v s) => (env.lookup s).map (sem.padT p v)
  | (_, .conv c s) => (env.lookup s).map (sem.conv2dT c)
  | (n, .act s) => (env.lookup s).bind fun t => (layers.lookup n).bind fun k =>
      match k with
      | .relu cls => some (cls.fwd t)
      | _ => none
  | (n, .maxpool ks st p cm s) => (env.lookup s).bind fun t =>
      (layers.lookup n).bind fun k =>
      match k with
      | .maxPool2dL => some (sem.maxPool2dT ks st p cm t)
      | _ => none
  | (_, .lrn sz a b k s) => (env.lookup s).map (sem.lrnT sz a b k)
  | (n, .catOp srcs d) => (srcs.mapM env.lookup).bind fun ts =>
      (layers.lookup n).bind fun k =>
      match k with
      | .catL => some (sem.catT ts d)
      | _ => none
  | (_, .avgpool ks st p cm ci s) => (env.lookup s).map (sem.avgPool2dT ks st p cm ci)
  | (_, .reshape sh s) => (env.lookup s).map (sem.reshapeT sh)
  | (_, .linear l s) => (env.lookup s).map (sem.linearT l)
  | (n, .softmaxOp d s) => (env.lookup s).bind fun t =>
      (layers.lookup n).bind fun k =>
      match k with
      | .softMaxL => some (sem.softmaxT d t)
      | _ => none

/-- Process one assignment of the graph. -/
def evalStep (sem : TorchSem) (layers : List (String × LayerKind))
    (env : Option GEnv) (e : String × Op) : Option GEnv :=
  env.bind fun env => (evalOp sem layers env e).map fun t => (e.1, t) :: env

/-- Run the whole graph and read the returned variable. -/
def runGraph (sem : TorchSem) (layers : List (String × LayerKind))
    (g : List (String × Op)) (x : Tensor) : Option Tensor :=
  (g.foldl (evalStep sem layers) (some [("x", x)])).bind fun env => env.lookup "softmax2"

/-- InceptionV1.forward of the model built with the given redirected_ReLU flag. -/
def InceptionV1_forward (sem : TorchSem) (redirected_ReLU : Bool) (x : Tensor) : Option Tensor :=
  runGraph sem (add_layers redirected_ReLU) forwardGraph x

/-! ### Structural views of the forward graph -/

/-- All torch.cat nodes of the forward pass, in execution order. -/
def catEntries : List (String × List String × ℕ) :=
  forwardGraph.filterMap fun e =>
    match e.2 with
    | .catOp srcs d => some (e.1, srcs, d)
    | _ => none

/-- All local_response_norm applications of the forward pass, in execution order:
    (assigned variable, size, alpha, beta, k, argument variable). -/
def lrnEntries : List (String × ℕ × ℚ × ℚ × ℚ × String) :=
  forwardGraph.filterMap fun e =>
    match e.2 with
    | .lrn sz a b k s => some (e.1, sz, a, b, k, s)
    | _ => none

/-- Definition of a variable in the forward graph. -/
def lookupOp (n : String) : Option Op := forwardGraph.lookup n

/-- If n is defined as activation-of-convolution with the given kernel size,
    return the convolution input variable. -/
def actConvSrc (n : String) (ker : ℕ × ℕ) : Option String :=
  match lookupOp n with
  | some (.act c) =>
    match lookupOp c with
    | some (.conv cs s) => if cs.kernel == ker then some s else none
    | _ => none
  | _ => none

/-- If n is defined as a pad with the given fill value, return its input variable. -/
def padSrc (n : String) (v : Option EVal) : Option String :=
  match lookupOp n with
  | some (.pad _ w s) => if w == v then some s else none
  | _ => none

/-- If n is defined as a max-pool, return its input variable. -/
def maxpoolSrc (n : String) : Option String :=
  match lookupOp n with
  | some (.maxpool _ _ _ _ s) => some s
  | _ => none

/-- A mixed inception block: a 4-way torch.cat along dim 1 of
    act(conv1x1(x)), act(conv3x3(pad(act(conv1x1(x))))),
    act(conv5x5(pad(act(conv1x1(x))))) and act(conv1x1(maxpool(pad(x)))),
    all four branches fed from one common input x. -/
def isMixedBlock (blk : String) : Bool :=
  match lookupOp blk with
  | some (.catOp [b1, b3, b5, bp] 1) =>
    b1 == blk ++ "_1x1" && b3 == blk ++ "_3x3" && b5 == blk ++ "_5x5" &&
    bp == blk ++ "_pool_reduce" &&
    (match actConvSrc b1 (1, 1) with
     | some x =>
       (match actConvSrc b3 (3, 3) with
        | some p3 => (padSrc p3 none).bind (fun bn3 => actConvSrc bn3 (1, 1)) == some x
        | none => false) &&
       (match actConvSrc b5 (5, 5) with
        | some p5 => (padSrc p5 none).bind (fun bn5 => actConvSrc bn5 (1, 1)) == some x
        | none => false) &&
       (match actConvSrc bp (1, 1) with
        | some pl => (maxpoolSrc pl).bind (fun pp => padSrc pp (some .negInf)) == some x
        | none => false)
     | none => false)
  | _ => false

/-- Channel inference along the graph: convolutions and the linear layer check
    their declared input width against the inferred width of their argument;
    concatenation along dim 1 sums the widths; every other op preserves it. -/
def chStep (env : List (String × ℕ)) (e : String × Op) : Option (List (String × ℕ)) :=
  match e.2 with
  | .pad _ _ s => (env.lookup s).map fun c => (e.1, c) :: env
  | .conv cs s => (env.lookup s).bind fun c =>
      if c = cs.inChannels then some ((e.1, cs.outChannels) :: env) else none
  | .act s => (env.lookup s).map fun c => (e.1, c) :: env
  | .maxpool _ _ _ _ s => (env.lookup s).map fun c => (e.1, c) :: env
  | .lrn _ _ _ _ s => (env.lookup s).map fun c => (e.1, c) :: env
  | .catOp srcs _ => (srcs.mapM env.lookup).map fun cs => (e.1, cs.sum) :: env
  | .avgpool _ _ _ _ _ s => (env.lookup s).map fun c => (e.1, c) :: env
  | .reshape sh s => (env.lookup s).map fun _ => (e.1, sh.2.toNat) :: env
  | .linear l s => (env.lookup s).bind fun c =>
      if c = l.inFeatures then some ((e.1, l.outFeatures) :: env) else none
  | .softmaxOp _ s => (env.lookup s).map fun c => (e.1, c) :: env

/-- Channel widths of all forward-pass variables (none if any layer's declared
    input width disagrees with what actually reaches it). -/
def channelsEnv : Option (List (String × ℕ)) := forwardGraph.foldlM chStep [("x", 3)]

/-- Inferred channel width of a forward-pass variable. -/
def chOf (n : String) : Option ℕ := channelsEnv.bind fun env => env.lookup n

/-- Relation between layer assignments: same attribute names, same classes except
    that the two relu-layer classes are interchangeable. -/
def kindRelB : LayerKind → LayerKind → Bool
  | .relu _, .relu _ => true
  | a, b => decide (a = b)

/-- Pointwise kindRelB between two attribute assignment lists. -/
def pairRelB : List (String × LayerKind) → List (String × LayerKind) → Bool
  | [], [] => true
  | a :: as, b :: bs => a.1 == b.1 && kindRelB a.2 b.2 && pairRelB as bs
  | _, _ => false

/-! ## torchlight.io (src/torchlight/io.py) -/

/-- Python exception kinds raised by the modelled io helpers. -/
inductive PyErr
  | valueError
  | assertionError
  | indexError
  | zeroDivisionError
deriving DecidableEq

/-- NumPy dtype kinds relevant to the io helpers (all of them numeric). -/
inductive DType
  | uint8
  | int64
  | float64
deriving DecidableEq

/-- np.issubdtype(d, np.inexact). -/
def isFloatD : DType → Bool
  | .float64 => true
  | _ => false

/-- A Python numeric scalar: its rational value and whether it is a float. -/
structure PyNum where
  q : ℚ
  isFloat : Bool
deriving DecidableEq

/-- A NumPy array value: shape, row-major data, dtype. -/
structure NArr where
  shape : List ℕ
  data : List ℚ
  dtype : DType
deriving DecidableEq

/-- A heap of array buffers, addressed by allocation index. -/
abbrev Store := List (List ℚ)

/-- A reference to an array: buffer index plus (view) shape and dtype. -/
structure NRef where
  id : ℕ
  shape : List ℕ
  dtype : DType

/-- np.clip of a scalar. -/
def clipQ (lo hi q : ℚ) : ℚ := min (max q lo) hi

/-- Result dtype of ndarray.clip(lo, hi) under NumPy promotion: clipping with a
    float bound promotes an integer array to float. -/
def promoteClip (d : DType) (lo hi : PyNum) : DType :=
  if isFloatD d || lo.isFloat || hi.isFloat then .float64 else d

/-- astype(np.uint8) applied after clip(0, 255): C truncation of the clipped
    nonnegative value, i.e. its floor. -/
def u8cast (q : ℚ) : ℚ := ((⌊clipQ 0 255 q⌋ : ℤ) : ℚ)

/-- The in-place `array -= offset` of normalize_array (skipped when the offset,
    domain[0], is zero); writes through the view into buffer a. -/
def subStage (s : Store) (a : NRef) (d0 : ℚ) : Store :=
  if d0 ≠ 0 then s.set a.id ((s.getD a.id []).map fun q => q - d0) else s

/-- The in-place `array *= scalar` of normalize_array with
    scalar = max_value / (domain[1] - domain[0]), skipped when the domain is
    degenerate or the scalar is 1; writes through the view into buffer a. -/
def mulStage (s : Store) (a : NRef) (d0 d1 : ℚ) : Store :=
  if d0 ≠ d1 then
    if 255 / (d1 - d0) ≠ 1 then
      s.set a.id ((s.getD a.id []).map fun q => q * (255 / (d1 - d0)))
    else s
  else s

/-- The in-place block of normalize_array for inexact dtypes. -/
def inexactStage (s : Store) (a : NRef) (d0 d1 : ℚ) : Store :=
  mulStage (subStage s a d0) a d0 d1

/-- `array = array.clip(*domain)` when the measured range falls outside the
    domain: a new buffer (with NumPy's promoted dtype), else the array is left
    alone. -/
def clipStage (s1 : Store) (a1 : NRef) (x : ℚ) (xs : List ℚ) (d0 d1 : PyNum) :
    Store × NRef :=
  if xs.foldl min x < d0.q ∨ xs.foldl max x > d1.q then
    (s1 ++ [(x :: xs).map (clipQ d0.q d1.q)],
      ⟨s1.length, a1.shape, promoteClip a1.dtype d0 d1⟩)
  else (s1, a1)

/-- Body of normalize_array after the asserts, once the domain (d0, d1) is
    known: clip to the domain when values fall outside it, rescale inexact
    arrays in place, and finally clip(0, 255).astype(np.uint8) into a fresh
    buffer. -/
def normCoreD (s1 : Store) (a1 : NRef) (x : ℚ) (xs : List ℚ) (d0 d1 : PyNum) :
    Store × NRef :=
  let p := clipStage s1 a1 x xs d0 d1
  let s3 := if isFloatD p.2.dtype then inexactStage p.1 p.2 d0.q d1.q else p.1
  (s3 ++ [(s3.getD p.2.id []).map u8cast], ⟨s3.length, p.2.shape, .uint8⟩)

/-- Body of normalize_array after the asserts, on the (nonempty) copied data:
    low, high = np.min(array), np.max(array) and the domain defaults to
    (low, high), as scalars of the array's dtype. -/
def normCore (s1 : Store) (a1 : NRef) (x : ℚ) (xs : List ℚ)
    (domain : Option (PyNum × PyNum)) : Store × NRef :=
  let low := xs.foldl min x
  let high := xs.foldl max x
  let dom := domain.getD (⟨low, isFloatD a1.dtype⟩, ⟨high, isFloatD a1.dtype⟩)
  normCoreD s1 a1 x xs dom.1 dom.2

/-- normalize_array on the buffer store: copies the caller's buffer
    (array = np.array(array)), squeezes it as a view, checks the asserts
    (the dtype and NaN asserts hold for every modelled array: all modelled
    dtypes are numeric and ℚ has no NaN), fails like np.min on a zero-size
    array, and otherwise runs normCore. -/
def normalize_array (s : Store) (r : NRef) (domain : Option (PyNum × PyNum)) :
    Store × Except PyErr NRef :=
  if (r.shape.filter fun d => d ≠ 1).length ≤ 3 then
    match s.getD r.id [] with
    | [] => (s ++ [s.getD r.id []], .error .valueError)
    | x :: xs =>
      ((normCore (s ++ [s.getD r.id []]) ⟨s.length, r.shape.filter fun d => d ≠ 1, r.dtype⟩
          x xs domain).1,
        .ok (normCore (s ++ [s.getD r.id []]) ⟨s.length, r.shape.filter fun d => d ≠ 1, r.dtype⟩
          x xs domain).2)
  else (s ++ [s.getD r.id []], .error .assertionError)

/-- normalize_array as a value-level function: run on a one-buffer store and
    read back the resulting array. -/
def normalizeV (a : NArr) (domain : Option (PyNum × PyNum)) : Except PyErr NArr :=
  match normalize_array [a.data] ⟨0, a.shape, a.dtype⟩ domain with
  | (s, .ok rf) => .ok ⟨rf.shape, s.getD rf.id [], rf.dtype⟩
  | (_, .error e) => .error e

/-- Abstract image codec layer (PIL): the encoded bytes of an image. -/
structure IOEnv where
  pilEncode : NArr → String → ℕ → List ℕ

/-- A trivial codec (encodes every image to zero bytes), used to instantiate
    the abstract codec layer on concrete examples. -/
def trivialEncoder : IOEnv := ⟨fun _ _ _ => []⟩

/-- np.max of a flat buffer: errors (none) on a zero-size array. -/
def npMaxQ : List ℚ → Option ℚ
  | [] => none
  | x :: xs => some (xs.foldl max x)

/-- _serialize_normalized_array: asserts an unsigned dtype, np.max(array) within
    the dtype bound (np.max errors on a zero-size array), and a last dimension
    greater than 1 (an IndexError on a rank-0 shape); then encodes via PIL. -/
def _serialize_normalized_array (env : IOEnv) (a : NArr) (fmt : String) (quality : ℕ) :
    Except PyErr (List ℕ) :=
  if a.dtype = .uint8 then
    match npMaxQ a.data with
    | none => .error .valueError
    | some m =>
      if m ≤ 255 then
        match a.shape.getLast? with
        | none => .error .indexError
        | some d =>
          if 1 < d then .ok (env.pilEncode a fmt quality)
          else .error .assertionError
      else .error .assertionError
  else .error .assertionError

/-- serialize_array: normalize, then serialize the normalized array. -/
def serialize_array (env : IOEnv) (a : NArr) (domain : Option (PyNum × PyNum))
    (fmt : String) (quality : ℕ) : Except PyErr (List ℕ) :=
  (normalizeV a domain).bind fun n => _serialize_normalized_array env n fmt quality

def b64Chars : List Char :=
  "ABCDEFGHIJKLMNOPQRSTUVWXYZabcdefghijklmnopqrstuvwxyz0123456789+/".toList

def b64Char (n : ℕ) : Char := b64Chars.getD n 'A'

/-- base64.b64encode(bytes).decode("ascii") on a byte list (standard alphabet,
    with '=' padding). -/
def b64Encode : List ℕ → String
  | [] => ""
  | [b0] =>
    let c0 := b0 % 256
    String.mk [b64Char (c0 / 4), b64Char (c0 % 4 * 16), '=', '=']
  | [b0, b1] =>
    let c0 := b0 % 256
    let c1 := b1 % 256
    String.mk [b64Char (c0 / 4), b64Char (c0 % 4 * 16 + c1 / 16), b64Char (c1 % 16 * 4), '=']
  | b0 :: b1 :: b2 :: rest =>
    let c0 := b0 % 256
    let c1 := b1 % 256
    let c2 := b2 % 256
    String.mk [b64Char (c0 / 4), b64Char (c0 % 4 * 16 + c1 / 16),
      b64Char (c1 % 16 * 4 + c2 / 64), b64Char (c2 % 64)] ++ b64Encode rest

def listIsPref : List Char → List Char → Bool
  | [], _ => true
  | _ :: _, [] => false
  | a :: as, b :: bs => a == b && listIsPref as bs

/-- The Python `in` operator on strings: contiguous substring test. -/
def pyIn (needle hay : String) : Bool :=
  (List.range (hay.length + 1)).any fun i => listIsPref needle.toList (hay.toList.drop i)

def splitDotAux : List Char → List Char → List String
  | [], cur => [String.mk cur.reverse]
  | c :: rest, cur =>
    if c = '.' then String.mk cur.reverse :: splitDotAux rest []
    else splitDotAux rest (c :: cur)

/-- Python str.split("."): the pieces between the dots. -/
def pySplitDot (s : String) : List String := splitDotAux s.toList []

/-- Python str.upper on ASCII strings. -/
def pyUpper (s : String) : String := String.mk (s.toList.map Char.toUpper)

/-- Python str.replace: replace all non-overlapping occurrences, left to right.
    (Fuelled by the string length, which bounds the number of steps; only ever
    called with a nonempty pattern.) -/
def pyReplaceAux (pat rep : List Char) : ℕ → List Char → List Char
  | 0, s => s
  | _ + 1, [] => []
  | fuel + 1, c :: cs =>
    if listIsPref pat (c :: cs) && !pat.isEmpty then
      rep ++ pyReplaceAux pat rep fuel ((c :: cs).drop pat.length)
    else c :: pyReplaceAux pat rep fuel cs

def pyReplace (s pat rep : String) : String :=
  String.mk (pyReplaceAux pat.toList rep.toList s.toList.length s.toList)

/-- _image_url: supported_modes = "data" (a string!), raise ValueError when mode
    is not `in` it, else the data URL around the base64 of the serialized bytes. -/
def _image_url (env : IOEnv) (a : NArr) (fmt : String) (mode : String) (quality : ℕ)
    (domain : Option (PyNum × PyNum)) : Except PyErr String :=
  if pyIn mode "data" then
    (serialize_array env a domain fmt quality).map fun bytes =>
      "data:image/" ++ pyUpper fmt ++ ";base64," ++ b64Encode bytes
  else .error .valueError

/-- _image_html: the img tag around the data URL (default quality 90). -/
def _image_html (env : IOEnv) (a : NArr) (width : Option ℕ)
    (domain : Option (PyNum × PyNum)) (fmt : String) (title : String) :
    Except PyErr String :=
  (_image_url env a fmt "data" 90 domain).map fun url =>
    let style := "image-rendering: pixelated;" ++
      (match width with
       | some w => "width: " ++ toString w ++ "px;"
       | none => "")
    let title_h := if title ≠ "" then "<h4>" ++ title ++ "</h4>" else ""
    title_h ++ "<img src=\"" ++ url ++ "\" style=\"" ++ style ++ "\" alt=" ++ title ++ ">"

inductive SaveKind
  | npy
  | png
  | mp4
  | gif
deriving DecidableEq

/-- A file produced by one of the save helpers. -/
structure FileWrite where
  path : String
  kind : SaveKind
deriving DecidableEq

/-- Python str.endswith. -/
def pyEndsWith (s suf : String) : Bool := listIsPref suf.toList.reverse s.toList.reverse

/-- np.save appends ".npy" when the target path does not already end with it. -/
def npSavePath (p : String) : String := if pyEndsWith p ".npy" then p else p ++ ".npy"

/-- np.stack: one array of one higher rank; ValueError on an empty list or on
    arrays of differing shapes. -/
def npStack : List NArr → Except PyErr NArr
  | [] => .error .valueError
  | a :: rest =>
    if rest.all fun b => b.shape == a.shape then
      .ok ⟨(a :: rest).length :: a.shape, ((a :: rest).map fun b => b.data).flatten, a.dtype⟩
    else .error .valueError

/-- The list comprehension [normalize_array(image, domain) for image in images]:
    normalize each image in order, propagating the first error. -/
def mapNormalize (domain : Option (PyNum × PyNum)) : List NArr → Except PyErr (List NArr)
  | [] => .ok []
  | a :: rest =>
    (normalizeV a domain).bind fun b => (mapNormalize domain rest).map fun bs => b :: bs

/-- numpy_image_to_video: re-normalize, read h, w, _ from images[0].shape
    (IndexError on an empty list, ValueError unless the unpacking has exactly
    three dimensions), then write one MP4 file via cv2. -/
def numpy_image_to_video (images : List NArr) (fps : ℕ) (filename : String)
    (domain : Option (PyNum × PyNum)) : Except PyErr (List FileWrite) :=
  (mapNormalize domain images).bind fun nimgs =>
    match nimgs with
    | [] => .error .indexError
    | i0 :: _ =>
      if i0.shape.length = 3 then
        let _ := fps
        .ok [⟨filename, .mp4⟩]
      else .error .valueError

/-- numpy_image_to_gif: re-normalize, then images[0].save (IndexError on an
    empty list) writes one GIF file. -/
def numpy_image_to_gif (images : List NArr) (filename : String)
    (domain : Option (PyNum × PyNum)) : Except PyErr (List FileWrite) :=
  (mapNormalize domain images).bind fun nimgs =>
    match nimgs with
    | [] => .error .indexError
    | _ :: _ => .ok [⟨filename, .gif⟩]

/-- The target base path of the png branch: save_path with every ".png" removed
    (when present). -/
def pngBase (save_path : String) : String :=
  if pyIn ".png" save_path then pyReplace save_path ".png" "" else save_path

/-- save_images: save_type is the piece after the last '.', the images are
    normalized, then the save dispatches on save_type, raising ValueError for
    an unsupported type before writing anything. -/
def save_images (images : List NArr) (save_path : String)
    (domain : Option (PyNum × PyNum)) (fps : ℕ) : Except PyErr (List FileWrite) :=
  (mapNormalize domain images).bind fun nimgs =>
    if (pySplitDot save_path).getLastD "" = "npy" then
      (npStack nimgs).map fun _ => [⟨npSavePath save_path, .npy⟩]
    else if (pySplitDot save_path).getLastD "" = "png" then
      if nimgs.length = 1 then .ok [⟨pngBase save_path ++ ".png", .png⟩]
      else .ok ((List.range nimgs.length).map fun i =>
        ⟨pngBase save_path ++ "_" ++ toString i ++ ".png", .png⟩)
    else if (pySplitDot save_path).getLastD "" = "mp4" then
      numpy_image_to_video nimgs fps save_path none
    else if (pySplitDot save_path).getLastD "" = "gif" then
      numpy_image_to_gif nimgs save_path none
    else .error .valueError

/-- np.ceil(np.sqrt(n)).astype(int). -/
def natSqrtCeil (n : ℕ) : ℕ :=
  if Nat.sqrt n * Nat.sqrt n = n then Nat.sqrt n else Nat.sqrt n + 1

/-- Placeholder array read only under an index guard that never fires. -/
def dfltArr : NArr := ⟨[], [], .uint8⟩

def tableStyleHeader : String :=
  "<style>\n    td:hover \x7b\n        transition: transform 0.5s;\n        transform: scale(1.1);\n        \x7d\n    </style>\n    <table style='border-collapse: collapse;'>\n    "

/-- One iteration of the inner cell loop of _create_image_table: render the
    cell idx = i * n_cols + j when idx < len(images), else do nothing.  Inside
    the guard, labels[idx] raises IndexError when idx reaches past the labels
    list (the source indexes labels[idx] with no bound check of its own). -/
def tableCellStep (env : IOEnv) (images : List NArr) (labels : List String)
    (domain : Option (PyNum × PyNum)) (width : Option ℕ) (fmt : String)
    (n_cols i : ℕ) (acc : String × List ℕ) (j : ℕ) : Except PyErr (String × List ℕ) :=
  if i * n_cols + j < images.length then
    if i * n_cols + j < labels.length then
      (_image_html env (images.getD (i * n_cols + j) dfltArr) width domain fmt
          (labels.getD (i * n_cols + j) "")).map
        fun cell =>
          (acc.1 ++ "<td style='text-align: center;'>" ++ cell ++ "</td>",
            acc.2 ++ [i * n_cols + j])
    else .error .indexError
  else .ok acc

/-- One iteration of the outer row loop of _create_image_table. -/
def tableRowStep (env : IOEnv) (images : List NArr) (labels : List String)
    (domain : Option (PyNum × PyNum)) (width : Option ℕ) (fmt : String)
    (n_cols : ℕ) (acc : String × List ℕ) (i : ℕ) : Except PyErr (String × List ℕ) :=
  ((List.range n_cols).foldlM (tableCellStep env images labels domain width fmt n_cols i)
      (acc.1 ++ "<tr>", acc.2)).map
    fun acc1 => (acc1.1 ++ "</tr>", acc1.2)

/-- _create_image_table: n_rows defaults (also on 0, which is falsy) to
    ceil(sqrt(len)), n_cols = len // n_rows, n_rows is bumped by one when
    n_rows * n_cols < len, then the double loop renders the cell idx = i *
    n_cols + j whenever idx < len.  Returns the HTML string together with the
    list of image indices rendered as <img> cells, in order. -/
def _create_image_table (env : IOEnv) (images : List NArr) (labels : List String)
    (domain : Option (PyNum × PyNum)) (width : Option ℕ) (fmt : String)
    (n_rows0 : Option ℕ) : Except PyErr (String × List ℕ) :=
  let L := images.length
  let nr0 := match n_rows0 with
    | some r => if r = 0 then natSqrtCeil L else r
    | none => natSqrtCeil L
  if nr0 = 0 then .error .zeroDivisionError
  else
    let n_cols := L / nr0
    let n_rows := if nr0 * n_cols < L then nr0 + 1 else nr0
    ((List.range n_rows).foldlM (tableRowStep env images labels domain width fmt n_cols)
        (tableStyleHeader, ([] : List ℕ))).map
      fun (acc : String × List ℕ) => (acc.1 ++ "</table>", acc.2)

/-- The image indices rendered by row i of the table. -/
def tableRowIdxs (L c i : ℕ) : List ℕ :=
  (List.range c).filterMap fun j => if i * c + j < L then some (i * c + j) else none

/-- The image indices rendered by the whole table with r rows and c columns. -/
def tableIdxs (L c r : ℕ) : List ℕ := ((List.range r).map (tableRowIdxs L c)).flatten

/-- show_images: default labels are "1".."len" (also when an empty label list is
    given, which is falsy), then wrap the image table in the outer divs. -/
def show_images (env : IOEnv) (images : List NArr) (labels : Option (List String))
    (domain : Option (PyNum × PyNum)) (width : Option ℕ) (fmt : String)
    (n_rows : ℕ) : Except PyErr (String × List ℕ) :=
  let defaultLabels := (List.range images.length).map fun i => toString (i + 1)
  let labels2 := match labels with
    | none => defaultLabels
    | some [] => defaultLabels
    | some l => l
  (_create_image_table env images labels2 domain width fmt (some n_rows)).map fun p =>
    ("<div style=\"display: flex; flex-direction: row;\">" ++
      "<div style=\"margin-right:10px; margin-top: 4px;\">" ++
      p.1 ++ "</div>" ++ "</div>", p.2)

/-! ## Theorems about the InceptionV1 embedding -/

/-- The forward of both relu-layer classes is the elementwise ReLU. -/
theorem RedirectedReLU_forward_eq_relu (t : Tensor) :
    RedirectedReLU_forward t = ReluLayer_forward t :=
  List.map_congr_left fun a _ => max_comm a 0

/-- Both relu-layer classes compute the same forward function. -/
theorem ActClass_fwd_eq (c c' : ActClass) : c.fwd = c'.fwd := by
  have h : ∀ t : Tensor, RedirectedReLU_forward t = ReluLayer_forward t :=
    RedirectedReLU_forward_eq_relu
  cases c <;> cases c' <;> simp only [ActClass.fwd] <;> funext t <;>
    simp only [h]

/-- Looking up an attribute in two kindRelB-related assignment lists yields
    kindRelB-related results. -/
theorem pairRelB_lookup {L L' : List (String × LayerKind)}
    (h : pairRelB L L' = true) (n : String) :
    (L.lookup n = none ∧ L'.lookup n = none) ∨
    ∃ k k', L.lookup n = some k ∧ L'.lookup n = some k' ∧ kindRelB k k' = true := by
  induction L generalizing L' with
  | nil =>
    cases L' with
    | nil => exact .inl ⟨rfl, rfl⟩
    | cons b bs => simp [pairRelB] at h
  | cons a as ih =>
    cases L' with
    | nil => simp [pairRelB] at h
    | cons b bs =>
      simp only [pairRelB, Bool.and_eq_true, beq_iff_eq] at h
      obtain ⟨⟨h1, h2⟩, h3⟩ := h
      by_cases hn : n = a.1
      · refine .inr ⟨a.2, b.2, ?_, ?_, h2⟩
        · simp [List.lookup, hn]
        · simp [List.lookup, hn, h1.symm]
      · have hne : (n == a.1) = false := beq_eq_false_iff_ne.mpr hn
        have hne' : (n == b.1) = false := beq_eq_false_iff_ne.mpr (h1 ▸ hn)
        simpa [List.lookup, hne, hne'] using ih h3

/-- Evaluating a forward assignment does not depend on which relu-layer class
    the attribute assignment list carries. -/
theorem evalOp_congr (sem : TorchSem) {L L' : List (String × LayerKind)}
    (h : pairRelB L L' = true) (env : GEnv) (e : String × Op) :
    evalOp sem L env e = evalOp sem L' env e := by
  obtain ⟨n, op⟩ := e
  cases op with
  | pad p v s => rfl
  | conv c s => rfl
  | act s =>
    simp only [evalOp]
    rcases pairRelB_lookup h n with ⟨hl, hl'⟩ | ⟨k, k', hl, hl', hk⟩
    · rw [hl, hl']
    · rw [hl, hl']
      cases k with
      | relu c =>
        cases k' with
        | relu c' =>
          simp only [Option.some_bind]
          rw [ActClass_fwd_eq c c']
        | maxPool2dL => simp [kindRelB] at hk
        | catL => simp [kindRelB] at hk
        | softMaxL => simp [kindRelB] at hk
      | maxPool2dL => cases k' <;> simp_all [kindRelB]
      | catL => cases k' <;> simp_all [kindRelB]
      | softMaxL => cases k' <;> simp_all [kindRelB]
  | maxpool ks st p cm s =>
    simp only [evalOp]
    rcases pairRelB_lookup h n with ⟨hl, hl'⟩ | ⟨k, k', hl, hl', hk⟩
    · rw [hl, hl']
    · rw [hl, hl']
      cases k <;> cases k' <;> simp_all [kindRelB]
  | lrn sz a b k s => rfl
  | catOp srcs d =>
    simp only [evalOp]
    rcases pairRelB_lookup h n with ⟨hl, hl'⟩ | ⟨k, k', hl, hl', hk⟩
    · rw [hl, hl']
    · rw [hl, hl']
      cases k <;> cases k' <;> simp_all [kindRelB]
  | avgpool ks st p cm ci s => rfl
  | reshape sh s => rfl
  | linear l s => rfl
  | softmaxOp d s =>
    simp only [evalOp]
    rcases pairRelB_lookup h n with ⟨hl, hl'⟩ | ⟨k, k', hl, hl', hk⟩
    · rw [hl, hl']
    · rw [hl, hl']
      cases k <;> cases k' <;> simp_all [kindRelB]

/-- Folding a graph under two related attribute assignments yields the same
    environment. -/
theorem foldGraph_congr (sem : TorchSem) {L L' : List (String × LayerKind)}
    (h : pairRelB L L' = true) (g : List (String × Op)) (env : Option GEnv) :
    g.foldl (evalStep sem L) env = g.foldl (evalStep sem L') env := by
  induction g generalizing env with
  | nil => rfl
  | cons e g ih =>
    simp only [List.foldl_cons]
    have hstep : evalStep sem L env e = evalStep sem L' env e := by
      cases env with
      | none => rfl
      | some env =>
        show ((evalOp sem L env e).map fun t => (e.1, t) :: env) =
          ((evalOp sem L' env e).map fun t => (e.1, t) :: env)
        rw [evalOp_congr sem h env e]
    rw [hstep]
    exact ih _

/-- The attribute assignments produced by add_layers True and add_layers False
    agree up to the interchangeable relu-layer classes. -/
theorem add_layers_rel : pairRelB (add_layers true) (add_layers false) = true := by rfl

/-- Claim C2: RedirectedReLU.forward equals the standard ReLU elementwise on
    every input tensor, and consequently the InceptionV1 forward output with
    redirected_ReLU=True equals the one with redirected_ReLU=False for every
    input and every (shared) semantics of the framework primitives, i.e. every
    identical assignment of weights. -/
theorem redirected_relu_forward_equiv :
    (∀ t : Tensor, RedirectedReLU_forward t = ReluLayer_forward t) ∧
    ∀ (sem : TorchSem) (x : Tensor),
      InceptionV1_forward sem true x = InceptionV1_forward sem false x := by
  refine ⟨RedirectedReLU_forward_eq_relu, fun sem x => ?_⟩
  unfold InceptionV1_forward runGraph
  rw [foldGraph_congr sem add_layers_rel]

set_option maxRecDepth 100000 in
set_option maxHeartbeats 2000000 in
/-- Claim C1: the forward pass contains exactly nine torch.cat concatenation
    nodes, the mixed blocks, in the order mixed3a, mixed3b, mixed4a, mixed4b,
    mixed4c, mixed4d, mixed4e, mixed5a, mixed5b; each concatenates along channel
    dim 1 exactly the four parallel branches 1x1, 3x3, 5x5 and pool_reduce, and
    each branch has the declared shape (1x1 conv; 3x3 and 5x5
    bottleneck-then-conv; maxpool-then-1x1-reduce; each followed by its
    activation), all fed from one common block input. -/
theorem inceptionv1_nine_mixed_blocks :
    catEntries =
      [("mixed3a", ["mixed3a_1x1", "mixed3a_3x3", "mixed3a_5x5", "mixed3a_pool_reduce"], 1),
       ("mixed3b", ["mixed3b_1x1", "mixed3b_3x3", "mixed3b_5x5", "mixed3b_pool_reduce"], 1),
       ("mixed4a", ["mixed4a_1x1", "mixed4a_3x3", "mixed4a_5x5", "mixed4a_pool_reduce"], 1),
       ("mixed4b", ["mixed4b_1x1", "mixed4b_3x3", "mixed4b_5x5", "mixed4b_pool_reduce"], 1),
       ("mixed4c", ["mixed4c_1x1", "mixed4c_3x3", "mixed4c_5x5", "mixed4c_pool_reduce"], 1),
       ("mixed4d", ["mixed4d_1x1", "mixed4d_3x3", "mixed4d_5x5", "mixed4d_pool_reduce"], 1),
       ("mixed4e", ["mixed4e_1x1", "mixed4e_3x3", "mixed4e_5x5", "mixed4e_pool_reduce"], 1),
       ("mixed5a", ["mixed5a_1x1", "mixed5a_3x3", "mixed5a_5x5", "mixed5a_pool_reduce"], 1),
       ("mixed5b", ["mixed5b_1x1", "mixed5b_3x3", "mixed5b_5x5", "mixed5b_pool_reduce"], 1)] ∧
    (["mixed3a", "mixed3b", "mixed4a", "mixed4b", "mixed4c", "mixed4d", "mixed4e",
      "mixed5a", "mixed5b"].all isMixedBlock) = true :=
  ⟨by rfl, by rfl⟩

set_option maxRecDepth 100000 in
set_option maxHeartbeats 1000000 in
/-- Claim C5: local-response normalization is applied exactly twice in the
    forward pass, to the output of maxpool0 and to the output of conv2d2, both
    with size=9, alpha=9.99999974738e-05, beta=0.5, k=1, and nowhere else. -/
theorem inceptionv1_lrn_applications :
    lrnEntries =
      [("localresponsenorm0", 9, lrnAlpha, 1 / 2, 1, "maxpool0"),
       ("localresponsenorm1", 9, lrnAlpha, 1 / 2, 1, "conv2d2")] ∧
    lrnAlpha = 9.99999974738e-5 :=
  ⟨by rfl, by norm_num [lrnAlpha]⟩

set_option maxRecDepth 1000000 in
set_option maxHeartbeats 4000000 in
/-- Claim C4: the unrolled graph is channel-consistent — channel inference over
    the whole forward pass succeeds (every convolution's and the final linear
    layer's declared input width equals the width actually reaching it), each
    mixed block's concatenated output width is the sum of its four branches'
    out_channels with the listed values (mixed3a=256, mixed3b=480, mixed4a=508,
    mixed4b=512, mixed4c=512, mixed4d=528, mixed4e=832, mixed5a=832,
    mixed5b=1024), and mixed5b's width 1024 equals the in_features of
    softmax2_pre_activation_matmul. -/
theorem inceptionv1_channel_consistent :
    channelsEnv.isSome = true ∧
    chOf "mixed3a" = some 256 ∧
    chOf "mixed3b" = some 480 ∧
    chOf "mixed4a" = some 508 ∧
    chOf "mixed4b" = some 512 ∧
    chOf "mixed4c" = some 512 ∧
    chOf "mixed4d" = some 528 ∧
    chOf "mixed4e" = some 832 ∧
    chOf "mixed5a" = some 832 ∧
    chOf "mixed5b" = some 1024 ∧
    mixed3a_1x1_pre_relu_conv.outChannels + mixed3a_3x3_pre_relu_conv.outChannels +
      mixed3a_5x5_pre_relu_conv.outChannels + mixed3a_pool_reduce_pre_relu_conv.outChannels
      = 256 ∧
    mixed3b_1x1_pre_relu_conv.outChannels + mixed3b_3x3_pre_relu_conv.outChannels +
      mixed3b_5x5_pre_relu_conv.outChannels + mixed3b_pool_reduce_pre_relu_conv.outChannels
      = 480 ∧
    mixed4a_1x1_pre_relu_conv.outChannels + mixed4a_3x3_pre_relu_conv.outChannels +
      mixed4a_5x5_pre_relu_conv.outChannels + mixed4a_pool_reduce_pre_relu_conv.outChannels
      = 508 ∧
    mixed4b_1x1_pre_relu_conv.outChannels + mixed4b_3x3_pre_relu_conv.outChannels +
      mixed4b_5x5_pre_relu_conv.outChannels + mixed4b_pool_reduce_pre_relu_conv.outChannels
      = 512 ∧
    mixed4c_1x1_pre_relu_conv.outChannels + mixed4c_3x3_pre_relu_conv.outChannels +
      mixed4c_5x5_pre_relu_conv.outChannels + mixed4c_pool_reduce_pre_relu_conv.outChannels
      = 512 ∧
    mixed4d_1x1_pre_relu_conv.outChannels + mixed4d_3x3_pre_relu_conv.outChannels +
      mixed4d_5x5_pre_relu_conv.outChannels + mixed4d_pool_reduce_pre_relu_conv.outChannels
      = 528 ∧
    mixed4e_1x1_pre_relu_conv.outChannels + mixed4e_3x3_pre_relu_conv.outChannels +
      mixed4e_5x5_pre_relu_conv.outChannels + mixed4e_pool_reduce_pre_relu_conv.outChannels
      = 832 ∧
    mixed5a_1x1_pre_relu_conv.outChannels + mixed5a_3x3_pre_relu_conv.outChannels +
      mixed5a_5x5_pre_relu_conv.outChannels + mixed5a_pool_reduce_pre_relu_conv.outChannels
      = 832 ∧
    mixed5b_1x1_pre_relu_conv.outChannels + mixed5b_3x3_pre_relu_conv.outChannels +
      mixed5b_5x5_pre_relu_conv.outChannels + mixed5b_pool_reduce_pre_relu_conv.outChannels
      = 1024 ∧
    softmax2_pre_activation_matmul.inFeatures = 1024 :=
  ⟨by rfl, by rfl, by rfl, by rfl, by rfl, by rfl, by rfl, by rfl, by rfl, by rfl,
   by rfl, by rfl, by rfl, by rfl, by rfl, by rfl, by rfl, by rfl, by rfl, by rfl⟩

/-- Indexing a zipWith of two equally long lists. -/
theorem zipWith_getD (f : ℚ → ℚ → ℚ) (l1 l2 : List ℚ) (i : ℕ)
    (h : l1.length = l2.length) :
    (List.zipWith f l1 l2).getD i 0 =
      if i < l1.length then f (l1.getD i 0) (l2.getD i 0) else 0 := by
  induction l1 generalizing l2 i with
  | nil => simp
  | cons a as ih =>
    cases l2 with
    | nil => simp at h
    | cons b bs =>
      cases i with
      | zero => simp
      | succ j =>
        simp only [List.zipWith_cons_cons, List.getD_cons_succ, List.length_cons,
          Nat.succ_lt_succ_iff]
        exact ih bs j (by simpa using h)

/-- The gradient of the standard ReLU vanishes exactly on the negative reals. -/
theorem reluGradVanishesAt_iff (x : ℚ) : reluGradVanishesAt x ↔ x < 0 := by
  constructor
  · rintro ⟨δ, hδ, hconst⟩
    by_contra hx
    push_neg at hx
    have hy : |x + δ / 2 - x| < δ := by
      rw [add_sub_cancel_left, abs_of_pos (by linarith)]
      linarith
    have h1 := hconst (x + δ / 2) hy
    unfold reluQ at h1
    rw [max_eq_right hx, max_eq_right (by linarith : (0 : ℚ) ≤ x + δ / 2)] at h1
    linarith
  · intro hx
    refine ⟨-x, by linarith, fun y hy => ?_⟩
    have hy' : y < 0 := by
      have := (abs_lt.mp hy).2
      linarith
    unfold reluQ
    rw [max_eq_left hy'.le, max_eq_left hx.le]

/-- Claim C3: RedirectedReLU.backward keeps the length of the incoming gradient,
    multiplies it by 0.1 exactly at the positions whose saved input lies in the
    zero-gradient region of the standard ReLU, and returns it unchanged at every
    other position. -/
theorem redirected_relu_backward_spec (input grad : List ℚ) (i : ℕ)
    (h : input.length = grad.length) :
    (RedirectedReLU_backward input grad).length = grad.length ∧
    (reluGradVanishesAt (input.getD i 0) →
      (RedirectedReLU_backward input grad).getD i 0 = grad.getD i 0 * (1 / 10)) ∧
    (¬ reluGradVanishesAt (input.getD i 0) →
      (RedirectedReLU_backward input grad).getD i 0 = grad.getD i 0) := by
  refine ⟨?_, ?_, ?_⟩
  · simp [RedirectedReLU_backward, h]
  · intro hv
    have hneg : input.getD i 0 < 0 := (reluGradVanishesAt_iff _).mp hv
    have hi : i < input.length := by
      by_contra hge
      push_neg at hge
      rw [List.getD_eq_default _ _ hge] at hneg
      exact absurd hneg (by norm_num)
    rw [RedirectedReLU_backward, zipWith_getD _ _ _ _ h, if_pos hi, if_pos hneg]
  · intro hv
    have hpos : ¬ input.getD i 0 < 0 := fun hneg => hv ((reluGradVanishesAt_iff _).mpr hneg)
    by_cases hi : i < input.length
    · rw [RedirectedReLU_backward, zipWith_getD _ _ _ _ h, if_pos hi, if_neg hpos]
    · push_neg at hi
      rw [RedirectedReLU_backward, zipWith_getD _ _ _ _ h, if_neg (by omega),
        List.getD_eq_default _ _ (h ▸ hi)]

/-- Witness for C3 at a concrete input: the saved input [-1, 0, 2] with incoming
    gradient [10, 20, 30] yields 10 * 0.1 = 1 at the negative position and an
    unchanged 20 at the position where the input is 0. -/
theorem redirected_relu_backward_spec_witness :
    (RedirectedReLU_backward [-1, 0, 2] [10, 20, 30]).getD 0 0 = 1 ∧
    (RedirectedReLU_backward [-1, 0, 2] [10, 20, 30]).getD 1 0 = 20 := by
  constructor
  · have hs := (redirected_relu_backward_spec [-1, 0, 2] [10, 20, 30] 0 (by rfl)).2.1
      ((reluGradVanishesAt_iff _).mpr (by norm_num))
    rw [hs]
    norm_num
  · have hs := (redirected_relu_backward_spec [-1, 0, 2] [10, 20, 30] 1 (by rfl)).2.2
      (fun hv => by
        have hneg := (reluGradVanishesAt_iff _).mp hv
        norm_num at hneg)
    rw [hs]
    rfl

/-! ## Theorems about the torchlight.io embedding -/

theorem store_getD_append_lt (s : Store) (v : List ℚ) (i : ℕ) (h : i < s.length) :
    (s ++ [v]).getD i [] = s.getD i [] := by
  simp [List.getD_eq_getElem?_getD, List.getElem?_append_left h]

theorem store_getD_append_self (s : Store) (v : List ℚ) :
    (s ++ [v]).getD s.length [] = v := by
  simp [List.getD_eq_getElem?_getD, List.getElem?_append_right (le_refl s.length)]

theorem store_getD_set_ne (s : Store) (j i : ℕ) (v : List ℚ) (h : j ≠ i) :
    (s.set j v).getD i [] = s.getD i [] := by
  simp [List.getD_eq_getElem?_getD, List.getElem?_set_ne h]

theorem store_getD_set_self (s : Store) (j : ℕ) (v : List ℚ) (h : j < s.length) :
    (s.set j v).getD j [] = v := by
  simp [List.getD_eq_getElem?_getD, List.getElem?_set_self h]

theorem subStage_getD_ne (s : Store) (a : NRef) (d0 : ℚ) (i : ℕ) (h : a.id ≠ i) :
    (subStage s a d0).getD i [] = s.getD i [] := by
  unfold subStage
  split
  · exact store_getD_set_ne _ _ _ _ h
  · rfl

theorem subStage_length (s : Store) (a : NRef) (d0 : ℚ) :
    (subStage s a d0).length = s.length := by
  unfold subStage
  split <;> simp

theorem subStage_data_length (s : Store) (a : NRef) (d0 : ℚ) (h : a.id < s.length) :
    ((subStage s a d0).getD a.id []).length = (s.getD a.id []).length := by
  unfold subStage
  split
  · rw [store_getD_set_self _ _ _ h]
    simp
  · rfl

theorem mulStage_getD_ne (s : Store) (a : NRef) (d0 d1 : ℚ) (i : ℕ) (h : a.id ≠ i) :
    (mulStage s a d0 d1).getD i [] = s.getD i [] := by
  unfold mulStage
  split
  · split
    · exact store_getD_set_ne _ _ _ _ h
    · rfl
  · rfl

theorem mulStage_length (s : Store) (a : NRef) (d0 d1 : ℚ) :
    (mulStage s a d0 d1).length = s.length := by
  unfold mulStage
  split
  · split <;> simp
  · rfl

theorem mulStage_data_length (s : Store) (a : NRef) (d0 d1 : ℚ) (h : a.id < s.length) :
    ((mulStage s a d0 d1).getD a.id []).length = (s.getD a.id []).length := by
  unfold mulStage
  split
  · split
    · rw [store_getD_set_self _ _ _ h]
      simp
    · rfl
  · rfl

theorem inexactStage_getD_ne (s : Store) (a : NRef) (d0 d1 : ℚ) (i : ℕ) (h : a.id ≠ i) :
    (inexactStage s a d0 d1).getD i [] = s.getD i [] := by
  unfold inexactStage
  rw [mulStage_getD_ne _ _ _ _ _ h, subStage_getD_ne _ _ _ _ h]

theorem inexactStage_length (s : Store) (a : NRef) (d0 d1 : ℚ) :
    (inexactStage s a d0 d1).length = s.length := by
  unfold inexactStage
  rw [mulStage_length, subStage_length]

theorem inexactStage_data_length (s : Store) (a : NRef) (d0 d1 : ℚ) (h : a.id < s.length) :
    ((inexactStage s a d0 d1).getD a.id []).length = (s.getD a.id []).length := by
  unfold inexactStage
  rw [mulStage_data_length _ _ _ _ (by rw [subStage_length]; exact h),
    subStage_data_length _ _ _ h]

theorem clipStage_shape (s1 : Store) (a1 : NRef) (x : ℚ) (xs : List ℚ) (d0 d1 : PyNum) :
    (clipStage s1 a1 x xs d0 d1).2.shape = a1.shape := by
  unfold clipStage
  split <;> rfl

theorem clipStage_id_lt (s1 : Store) (a1 : NRef) (x : ℚ) (xs : List ℚ) (d0 d1 : PyNum)
    (h : a1.id < s1.length) :
    (clipStage s1 a1 x xs d0 d1).2.id < (clipStage s1 a1 x xs d0 d1).1.length := by
  unfold clipStage
  split
  · simp
  · exact h

theorem clipStage_len_ge (s1 : Store) (a1 : NRef) (x : ℚ) (xs : List ℚ) (d0 d1 : PyNum) :
    s1.length ≤ (clipStage s1 a1 x xs d0 d1).1.length := by
  unfold clipStage
  split <;> simp

theorem clipStage_getD_lt (s1 : Store) (a1 : NRef) (x : ℚ) (xs : List ℚ) (d0 d1 : PyNum)
    (i : ℕ) (h : i < s1.length) :
    (clipStage s1 a1 x xs d0 d1).1.getD i [] = s1.getD i [] := by
  unfold clipStage
  split
  · exact store_getD_append_lt _ _ _ h
  · rfl

theorem clipStage_data (s1 : Store) (a1 : NRef) (x : ℚ) (xs : List ℚ) (d0 d1 : PyNum)
    (ha : a1.id < s1.length) (hdata : s1.getD a1.id [] = x :: xs) :
    ((clipStage s1 a1 x xs d0 d1).1.getD (clipStage s1 a1 x xs d0 d1).2.id []).length
      = (x :: xs).length := by
  unfold clipStage
  split
  · dsimp only
    rw [store_getD_append_self]
    simp
  · dsimp only
    rw [hdata]

theorem clipStage_id_ne (s1 : Store) (a1 : NRef) (x : ℚ) (xs : List ℚ) (d0 d1 : PyNum)
    (i : ℕ) (hi : i < s1.length) (hne : i ≠ a1.id) :
    (clipStage s1 a1 x xs d0 d1).2.id ≠ i := by
  unfold clipStage
  split
  · dsimp only
    omega
  · exact fun h => hne h.symm

theorem u8cast_range (q : ℚ) : 0 ≤ u8cast q ∧ u8cast q ≤ 255 := by
  unfold u8cast clipQ
  constructor
  · have h0 : (0 : ℚ) ≤ min (max q 0) 255 := le_min (le_max_right q 0) (by norm_num)
    exact_mod_cast Int.floor_nonneg.mpr h0
  · calc ((⌊min (max q 0) 255⌋ : ℤ) : ℚ) ≤ min (max q 0) 255 := Int.floor_le _
      _ ≤ 255 := min_le_right _ _

theorem normCoreD_spec (s1 : Store) (a1 : NRef) (x : ℚ) (xs : List ℚ) (d0 d1 : PyNum)
    (ha : a1.id < s1.length) (hdata : s1.getD a1.id [] = x :: xs) :
    (normCoreD s1 a1 x xs d0 d1).2.shape = a1.shape ∧
    (normCoreD s1 a1 x xs d0 d1).2.dtype = .uint8 ∧
    ((normCoreD s1 a1 x xs d0 d1).1.getD (normCoreD s1 a1 x xs d0 d1).2.id []).length
      = (x :: xs).length ∧
    (∀ q ∈ (normCoreD s1 a1 x xs d0 d1).1.getD (normCoreD s1 a1 x xs d0 d1).2.id [],
      0 ≤ q ∧ q ≤ 255) ∧
    ∀ i, i < s1.length → i ≠ a1.id →
      (normCoreD s1 a1 x xs d0 d1).1.getD i [] = s1.getD i [] := by
  have hshape := clipStage_shape s1 a1 x xs d0 d1
  have hid := clipStage_id_lt s1 a1 x xs d0 d1 ha
  have hdlen := clipStage_data s1 a1 x xs d0 d1 ha hdata
  have hlen := clipStage_len_ge s1 a1 x xs d0 d1
  rcases hP : clipStage s1 a1 x xs d0 d1 with ⟨s2, a2⟩
  rw [hP] at hshape hid hdlen hlen
  dsimp only at hshape hid hdlen hlen
  unfold normCoreD
  rw [hP]
  dsimp only
  by_cases hf : isFloatD a2.dtype = true
  · rw [if_pos hf]
    have hxlen : (inexactStage s2 a2 d0.q d1.q).length = s2.length := inexactStage_length _ _ _ _
    refine ⟨hshape, rfl, ?_, ?_, ?_⟩
    · rw [store_getD_append_self]
      rw [List.length_map, inexactStage_data_length _ _ _ _ hid, hdlen]
    · intro q hq
      rw [store_getD_append_self] at hq
      obtain ⟨q0, _, hq0⟩ := List.mem_map.mp hq
      exact hq0 ▸ u8cast_range q0
    · intro i hiL hia
      have h1 : i < (inexactStage s2 a2 d0.q d1.q).length := by
        rw [hxlen]; exact lt_of_lt_of_le hiL hlen
      rw [store_getD_append_lt _ _ _ h1,
        inexactStage_getD_ne _ _ _ _ _ (clipStage_id_ne s1 a1 x xs d0 d1 i hiL hia ∘
          (by rw [hP]; exact fun h => h) : a2.id ≠ i)]
      · exact clipStage_getD_lt s1 a1 x xs d0 d1 i hiL ▸ (by rw [hP])
  · rw [if_neg hf]
    refine ⟨hshape, rfl, ?_, ?_, ?_⟩
    · rw [store_getD_append_self, List.length_map, hdlen]
    · intro q hq
      rw [store_getD_append_self] at hq
      obtain ⟨q0, _, hq0⟩ := List.mem_map.mp hq
      exact hq0 ▸ u8cast_range q0
    · intro i hiL hia
      have h1 : i < s2.length := lt_of_lt_of_le hiL hlen
      rw [store_getD_append_lt _ _ _ h1]
      have := clipStage_getD_lt s1 a1 x xs d0 d1 i hiL
      rw [hP] at this
      exact this

theorem normCore_spec (s1 : Store) (a1 : NRef) (x : ℚ) (xs : List ℚ)
    (dom : Option (PyNum × PyNum)) (ha : a1.id < s1.length)
    (hdata : s1.getD a1.id [] = x :: xs) :
    (normCore s1 a1 x xs dom).2.shape = a1.shape ∧
    (normCore s1 a1 x xs dom).2.dtype = .uint8 ∧
    ((normCore s1 a1 x xs dom).1.getD (normCore s1 a1 x xs dom).2.id []).length
      = (x :: xs).length ∧
    (∀ q ∈ (normCore s1 a1 x xs dom).1.getD (normCore s1 a1 x xs dom).2.id [],
      0 ≤ q ∧ q ≤ 255) ∧
    ∀ i, i < s1.length → i ≠ a1.id →
      (normCore s1 a1 x xs dom).1.getD i [] = s1.getD i [] := by
  unfold normCore
  exact normCoreD_spec s1 a1 x xs _ _ ha hdata

theorem normalize_array_preserves (s : Store) (r : NRef) (domain : Option (PyNum × PyNum))
    (i : ℕ) (hi : i < s.length) :
    (normalize_array s r domain).1.getD i [] = s.getD i [] := by
  have hia : i ≠ s.length := Nat.ne_of_lt hi
  rcases hd : s.getD r.id [] with _ | ⟨x, xs⟩
  · by_cases hrank : (r.shape.filter fun d => d ≠ 1).length ≤ 3
    · have heqn : normalize_array s r domain = (s ++ [[]], .error .valueError) := by
        unfold normalize_array
        rw [if_pos hrank, hd]
      rw [heqn]
      exact store_getD_append_lt s [] i hi
    · have heqn : normalize_array s r domain = (s ++ [[]], .error .assertionError) := by
        unfold normalize_array
        rw [if_neg hrank, hd]
      rw [heqn]
      exact store_getD_append_lt s [] i hi
  · by_cases hrank : (r.shape.filter fun d => d ≠ 1).length ≤ 3
    · have heqn : normalize_array s r domain =
          ((normCore (s ++ [x :: xs]) ⟨s.length, r.shape.filter fun d => d ≠ 1, r.dtype⟩
              x xs domain).1,
            .ok (normCore (s ++ [x :: xs]) ⟨s.length, r.shape.filter fun d => d ≠ 1, r.dtype⟩
              x xs domain).2) := by
        unfold normalize_array
        rw [if_pos hrank, hd]
      have hspec := normCore_spec (s ++ [x :: xs])
        ⟨s.length, r.shape.filter fun d => d ≠ 1, r.dtype⟩ x xs domain
        (by simp) (store_getD_append_self s (x :: xs))
      rw [heqn]
      dsimp only
      rw [hspec.2.2.2.2 i (by simp only [List.length_append, List.length_singleton]; omega) hia]
      exact store_getD_append_lt _ _ _ hi
    · have heqn : normalize_array s r domain = (s ++ [x :: xs], .error .assertionError) := by
        unfold normalize_array
        rw [if_neg hrank, hd]
      rw [heqn]
      exact store_getD_append_lt _ _ _ hi

theorem normalize_array_rank_fail (s : Store) (r : NRef) (domain : Option (PyNum × PyNum))
    (h : ¬ (r.shape.filter fun d => d ≠ 1).length ≤ 3) :
    (normalize_array s r domain).2 = .error .assertionError := by
  unfold normalize_array
  rw [if_neg h]

theorem normalize_array_empty_fail (s : Store) (r : NRef) (domain : Option (PyNum × PyNum))
    (hrank : (r.shape.filter fun d => d ≠ 1).length ≤ 3) (h : s.getD r.id [] = []) :
    (normalize_array s r domain).2 = .error .valueError := by
  unfold normalize_array
  rw [if_pos hrank, h]

theorem normalize_array_ok (s : Store) (r : NRef) (domain : Option (PyNum × PyNum))
    (hrank : (r.shape.filter fun d => d ≠ 1).length ≤ 3)
    (hne : s.getD r.id [] ≠ []) :
    ∃ b : NRef, (normalize_array s r domain).2 = .ok b ∧ b.dtype = .uint8 ∧
      b.shape = r.shape.filter (fun d => d ≠ 1) ∧
      ((normalize_array s r domain).1.getD b.id []).length = (s.getD r.id []).length ∧
      ∀ q ∈ (normalize_array s r domain).1.getD b.id [], 0 ≤ q ∧ q ≤ 255 := by
  rcases hd : s.getD r.id [] with _ | ⟨x, xs⟩
  · exact absurd hd hne
  · have heqn : normalize_array s r domain =
        ((normCore (s ++ [x :: xs]) ⟨s.length, r.shape.filter fun d => d ≠ 1, r.dtype⟩
            x xs domain).1,
          .ok (normCore (s ++ [x :: xs]) ⟨s.length, r.shape.filter fun d => d ≠ 1, r.dtype⟩
            x xs domain).2) := by
      unfold normalize_array
      rw [if_pos hrank, hd]
    have hspec := normCore_spec (s ++ [x :: xs])
      ⟨s.length, r.shape.filter fun d => d ≠ 1, r.dtype⟩ x xs domain
      (by simp) (store_getD_append_self s (x :: xs))
    refine ⟨(normCore (s ++ [x :: xs]) ⟨s.length, r.shape.filter fun d => d ≠ 1, r.dtype⟩
        x xs domain).2, ?_, hspec.2.1, hspec.1, ?_, ?_⟩
    · rw [heqn]
    · rw [heqn]
      exact hspec.2.2.1
    · intro q hq
      rw [heqn] at hq
      exact hspec.2.2.2.1 q hq

theorem normalizeV_eq (a : NArr) (domain : Option (PyNum × PyNum)) :
    normalizeV a domain =
      match normalize_array [a.data] ⟨0, a.shape, a.dtype⟩ domain with
      | (s, .ok rf) => .ok ⟨rf.shape, s.getD rf.id [], rf.dtype⟩
      | (_, .error e) => .error e := rfl

theorem normalizeV_ok (a : NArr) (domain : Option (PyNum × PyNum))
    (hrank : (a.shape.filter fun d => d ≠ 1).length ≤ 3) (hne : a.data ≠ []) :
    ∃ b : NArr, normalizeV a domain = .ok b ∧ b.dtype = .uint8 ∧
      b.shape = a.shape.filter (fun d => d ≠ 1) ∧ b.data.length = a.data.length ∧
      ∀ q ∈ b.data, 0 ≤ q ∧ q ≤ 255 := by
  obtain ⟨b, hok, hdt, hsh, hlen, hrange⟩ :=
    normalize_array_ok [a.data] ⟨0, a.shape, a.dtype⟩ domain hrank hne
  rcases hP : normalize_array [a.data] ⟨0, a.shape, a.dtype⟩ domain with ⟨s2, res⟩
  rw [hP] at hok hlen hrange
  dsimp only at hok hlen hrange
  subst hok
  refine ⟨⟨b.shape, s2.getD b.id [], b.dtype⟩, ?_, hdt, hsh, hlen, hrange⟩
  rw [normalizeV_eq, hP]

theorem normalizeV_rank_fail (a : NArr) (domain : Option (PyNum × PyNum))
    (h : ¬ (a.shape.filter fun d => d ≠ 1).length ≤ 3) :
    normalizeV a domain = .error .assertionError := by
  have h2 := normalize_array_rank_fail [a.data] ⟨0, a.shape, a.dtype⟩ domain h
  rcases hP : normalize_array [a.data] ⟨0, a.shape, a.dtype⟩ domain with ⟨s2, res⟩
  rw [hP] at h2
  dsimp only at h2
  subst h2
  rw [normalizeV_eq, hP]

theorem normalizeV_empty_fail (a : NArr) (domain : Option (PyNum × PyNum))
    (hrank : (a.shape.filter fun d => d ≠ 1).length ≤ 3) (h : a.data = []) :
    normalizeV a domain = .error .valueError := by
  have h2 := normalize_array_empty_fail [a.data] ⟨0, a.shape, a.dtype⟩ domain hrank h
  rcases hP : normalize_array [a.data] ⟨0, a.shape, a.dtype⟩ domain with ⟨s2, res⟩
  rw [hP] at h2
  dsimp only at h2
  subst h2
  rw [normalizeV_eq, hP]

theorem normalizeV_ok_inv {a b : NArr} {domain : Option (PyNum × PyNum)}
    (h : normalizeV a domain = .ok b) :
    b.dtype = .uint8 ∧ b.shape = a.shape.filter (fun d => d ≠ 1) ∧
    b.data.length = a.data.length ∧ a.data ≠ [] ∧
    ∀ q ∈ b.data, 0 ≤ q ∧ q ≤ 255 := by
  by_cases hrank : (a.shape.filter fun d => d ≠ 1).length ≤ 3
  · by_cases hne : a.data = []
    · rw [normalizeV_empty_fail a domain hrank hne] at h
      exact Except.noConfusion h
    · obtain ⟨b2, hok, hdt, hsh, hlen, hrange⟩ := normalizeV_ok a domain hrank hne
      rw [h] at hok
      obtain rfl : b = b2 := Except.ok.inj hok
      exact ⟨hdt, hsh, hlen, hne, hrange⟩
  · rw [normalizeV_rank_fail a domain hrank] at h
    exact Except.noConfusion h

/-- Claim C8 counterexample: the empty float array (numeric dtype, rank 1 after
    squeezing, no NaN values) does not yield a uint8 array — normalize_array
    raises ValueError at np.min, like NumPy on a zero-size reduction. -/
theorem normalize_array_empty_counterexample :
    normalize_array [[]] ⟨0, [0], .float64⟩ none = ([[], []], .error .valueError) := by rfl

/-- Claim C8 (amended): normalize_array never mutates the caller's buffer (it
    copies before any in-place operation), and on every NON-EMPTY modelled
    array (numeric dtype, no NaN) of rank at most 3 after squeezing it returns
    an array of dtype uint8 whose elements all lie in the range 0 to 255. -/
theorem normalize_array_uint8_range_no_mutation (s : Store) (r : NRef)
    (domain : Option (PyNum × PyNum)) (hr : r.id < s.length) :
    ((normalize_array s r domain).1.getD r.id [] = s.getD r.id []) ∧
    ((r.shape.filter fun d => d ≠ 1).length ≤ 3 → s.getD r.id [] ≠ [] →
      ∃ b : NRef, (normalize_array s r domain).2 = .ok b ∧ b.dtype = .uint8 ∧
        ∀ q ∈ (normalize_array s r domain).1.getD b.id [], 0 ≤ q ∧ q ≤ 255) :=
  ⟨normalize_array_preserves s r domain r.id hr, fun hrank hne =>
    (normalize_array_ok s r domain hrank hne).imp fun _ h =>
      ⟨h.1, h.2.1, h.2.2.2.2⟩⟩

/-- Witness for the amended C8 at a concrete store: a 2x2 int64 array. -/
theorem normalize_array_uint8_range_no_mutation_witness :
    ((normalize_array [[0, 1, 2, 3]] ⟨0, [2, 2], .int64⟩ none).1.getD 0 [] =
      List.getD [[0, 1, 2, 3]] 0 []) ∧
    ∃ b : NRef, (normalize_array [[0, 1, 2, 3]] ⟨0, [2, 2], .int64⟩ none).2 = .ok b ∧
      b.dtype = .uint8 ∧
      ∀ q ∈ (normalize_array [[0, 1, 2, 3]] ⟨0, [2, 2], .int64⟩ none).1.getD b.id [],
        0 ≤ q ∧ q ≤ 255 := by
  have h := normalize_array_uint8_range_no_mutation [[0, 1, 2, 3]] ⟨0, [2, 2], .int64⟩ none
    (by decide)
  exact ⟨h.1, h.2 (by decide) (List.cons_ne_nil _ _)⟩

theorem foldl_max_le (c : ℚ) : ∀ (xs : List ℚ) (x : ℚ),
    (∀ q ∈ x :: xs, q ≤ c) → xs.foldl max x ≤ c := by
  intro xs
  induction xs with
  | nil =>
    intro x h
    exact h x (List.mem_cons_self x [])
  | cons y ys ih =>
    intro x h
    simp only [List.foldl_cons]
    apply ih
    intro q hq
    rcases List.mem_cons.mp hq with rfl | hq2
    · exact max_le (h x (by simp)) (h y (by simp))
    · exact h q (by simp [hq2])

theorem getLast?_mem_of_ne_nil {l : List ℕ} (h : l ≠ []) :
    ∃ d, l.getLast? = some d ∧ d ∈ l := by
  induction l with
  | nil => exact absurd rfl h
  | cons a l ih =>
    cases l with
    | nil => exact ⟨a, rfl, by simp⟩
    | cons b m =>
      obtain ⟨d, hd, hmem⟩ := ih (by simp)
      exact ⟨d, by rw [List.getLast?_cons_cons]; exact hd, List.mem_cons_of_mem a hmem⟩

theorem squeezed_dim_gt_one (a : NArr) (hwf : a.data.length = a.shape.prod)
    (hne : a.data ≠ []) {d : ℕ} (hmem : d ∈ a.shape.filter fun x => x ≠ 1) : 1 < d := by
  have h1 : d ∈ a.shape ∧ d ≠ 1 := by
    have h := List.mem_filter.mp hmem
    exact ⟨h.1, by simpa using h.2⟩
  have h0 : d ≠ 0 := by
    intro h0
    subst h0
    have hz : a.shape.prod = 0 := List.prod_eq_zero h1.1
    rw [hz] at hwf
    exact hne (List.length_eq_zero.mp hwf)
  omega

theorem npMaxQ_le {l : List ℚ} {c : ℚ} (hne : l ≠ []) (h : ∀ q ∈ l, q ≤ c) :
    ∃ m, npMaxQ l = some m ∧ m ≤ c := by
  cases l with
  | nil => exact absurd rfl hne
  | cons x xs => exact ⟨_, rfl, foldl_max_le c xs x h⟩

theorem serialize_normalized_ok (env : IOEnv) (b : NArr) (hdt : b.dtype = .uint8)
    (hne : b.data ≠ []) (hmax : ∀ q ∈ b.data, q ≤ 255)
    (hlast : ∃ d, b.shape.getLast? = some d ∧ 1 < d) (fmt : String) (quality : ℕ) :
    _serialize_normalized_array env b fmt quality = .ok (env.pilEncode b fmt quality) := by
  obtain ⟨d, hd, hd1⟩ := hlast
  obtain ⟨m, hm, hm255⟩ := npMaxQ_le hne hmax
  unfold _serialize_normalized_array
  rw [if_pos hdt]
  simp only [hm, hd]
  rw [if_pos hm255, if_pos hd1]

theorem serialize_array_ok (env : IOEnv) (a : NArr) (domain : Option (PyNum × PyNum))
    (fmt : String) (quality : ℕ) (hwf : a.data.length = a.shape.prod)
    (hrank : (a.shape.filter fun d => d ≠ 1).length ≤ 3) (hne : a.data ≠ [])
    (hns : a.shape.filter (fun d => d ≠ 1) ≠ []) :
    ∃ b : NArr, normalizeV a domain = .ok b ∧
      serialize_array env a domain fmt quality = .ok (env.pilEncode b fmt quality) := by
  obtain ⟨b, hok, hdt, hsh, hlen, hrange⟩ := normalizeV_ok a domain hrank hne
  have hbne : b.data ≠ [] := by
    intro h
    rw [h] at hlen
    exact hne (List.length_eq_zero.mp hlen.symm)
  have hlast : ∃ d, b.shape.getLast? = some d ∧ 1 < d := by
    obtain ⟨d, hd, hmem⟩ := getLast?_mem_of_ne_nil (l := b.shape) (by rw [hsh]; exact hns)
    refine ⟨d, hd, ?_⟩
    rw [hsh] at hmem
    exact squeezed_dim_gt_one a hwf hne hmem
  refine ⟨b, hok, ?_⟩
  unfold serialize_array
  rw [hok]
  exact serialize_normalized_ok env b hdt hbne (fun q hq => (hrange q hq).2) hlast fmt quality

/-- Claim C7 counterexample: a 0-d scalar array is accepted by normalize_array,
    yet _image_url with mode='data' raises IndexError (array.shape[-1] on an
    empty shape tuple) instead of returning a data URL. -/
theorem image_url_scalar_counterexample :
    normalizeV ⟨[], [5], .int64⟩ none = .ok ⟨[], [5], .uint8⟩ ∧
    _image_url trivialEncoder ⟨[], [5], .int64⟩ "png" "data" 90 none = .error .indexError :=
  ⟨by rfl, by rfl⟩

/-- Claim C7 (amended): for every NON-SCALAR well-formed array accepted by
    normalize_array and every format string, _image_url with mode='data'
    returns exactly "data:image/" ++ fmt.upper() ++ ";base64," ++ the base64
    encoding of the bytes produced by serialize_array on the same arguments. -/
theorem image_url_data_amended (env : IOEnv) (a : NArr) (domain : Option (PyNum × PyNum))
    (fmt : String) (quality : ℕ) (hwf : a.data.length = a.shape.prod)
    (hrank : (a.shape.filter fun d => d ≠ 1).length ≤ 3) (hne : a.data ≠ [])
    (hns : a.shape.filter (fun d => d ≠ 1) ≠ []) :
    ∃ bytes, serialize_array env a domain fmt quality = .ok bytes ∧
      _image_url env a fmt "data" quality domain =
        .ok ("data:image/" ++ pyUpper fmt ++ ";base64," ++ b64Encode bytes) := by
  obtain ⟨b, hok, hser⟩ := serialize_array_ok env a domain fmt quality hwf hrank hne hns
  refine ⟨env.pilEncode b fmt quality, hser, ?_⟩
  unfold _image_url
  rw [if_pos (by rfl : pyIn "data" "data" = true), hser]
  rfl

/-- Witness for the amended C7 at a concrete input: a 2x2 int64 array. -/
theorem image_url_data_amended_witness :
    ∃ bytes,
      serialize_array trivialEncoder ⟨[2, 2], [0, 1, 2, 3], .int64⟩ none "png" 90 =
        .ok bytes ∧
      _image_url trivialEncoder ⟨[2, 2], [0, 1, 2, 3], .int64⟩ "png" "data" 90 none =
        .ok ("data:image/" ++ pyUpper "png" ++ ";base64," ++ b64Encode bytes) :=
  image_url_data_amended trivialEncoder ⟨[2, 2], [0, 1, 2, 3], .int64⟩ none "png" 90
    (by decide) (by decide) (List.cons_ne_nil _ _) (by decide)

/-- Claim C9 counterexample: mode='at' is different from 'data', yet _image_url
    raises no ValueError — Python's `in` tests for a substring of the string
    supported_modes = "data", and 'at' is one. -/
theorem image_url_mode_substring_counterexample :
    ("at" : String) ≠ "data" ∧
    _image_url trivialEncoder ⟨[2, 2], [0, 1, 2, 3], .int64⟩ "png" "at" 90 none =
      .ok "data:image/PNG;base64," :=
  ⟨by decide, by rfl⟩

/-- Claim C9 (amended): _image_url raises ValueError from its mode check exactly
    when mode is NOT a substring of the string "data"; when mode is such a
    substring (in particular mode='data') and the array is non-empty, no
    ValueError is raised (later failures are AssertionError or IndexError). -/
theorem image_url_mode_check (env : IOEnv) (a : NArr) (fmt : String) (mode : String)
    (quality : ℕ) (domain : Option (PyNum × PyNum)) :
    (pyIn mode "data" = false →
      _image_url env a fmt mode quality domain = .error .valueError) ∧
    (pyIn mode "data" = true → a.data ≠ [] →
      ∀ e, _image_url env a fmt mode quality domain = .error e → e ≠ .valueError) := by
  constructor
  · intro hm
    unfold _image_url
    rw [if_neg (by simp [hm])]
  · intro hm hne e herr
    unfold _image_url at herr
    rw [if_pos hm] at herr
    have hser : serialize_array env a domain fmt quality = .error e := by
      rcases hs : serialize_array env a domain fmt quality with e2 | bytes
      · rw [hs] at herr
        exact (Except.error.inj herr) ▸ rfl
      · rw [hs] at herr
        exact Except.noConfusion herr
    rcases hn : normalizeV a domain with e3 | b
    · by_cases hrank : (a.shape.filter fun d => d ≠ 1).length ≤ 3
      · obtain ⟨b, hok, _⟩ := normalizeV_ok a domain hrank hne
        rw [hok] at hn
        exact Except.noConfusion hn
      · rw [normalizeV_rank_fail a domain hrank] at hn
        have he3 : PyErr.assertionError = e3 := Except.error.inj hn
        unfold serialize_array at hser
        rw [normalizeV_rank_fail a domain hrank] at hser
        have : PyErr.assertionError = e := Except.error.inj hser
        rw [← this]
        decide
    · obtain ⟨hdt, hsh, hlen, hane, hrange⟩ := normalizeV_ok_inv hn
      have hbne : b.data ≠ [] := by
        intro h
        rw [h] at hlen
        exact hane (List.length_eq_zero.mp hlen.symm)
      unfold serialize_array at hser
      rw [hn] at hser
      have hser2 : _serialize_normalized_array env b fmt quality = .error e := hser
      unfold _serialize_normalized_array at hser2
      rw [if_pos hdt] at hser2
      obtain ⟨m, hmQ, _⟩ := npMaxQ_le hbne (fun q hq => (hrange q hq).2)
      simp only [hmQ] at hser2
      by_cases hm255 : m ≤ 255
      · rw [if_pos hm255] at hser2
        rcases hL : b.shape.getLast? with _ | d
        · simp only [hL] at hser2
          have he : PyErr.indexError = e := Except.error.inj hser2
          rw [← he]
          decide
        · simp only [hL] at hser2
          by_cases hd : 1 < d
          · rw [if_pos hd] at hser2
            exact Except.noConfusion hser2
          · rw [if_neg hd] at hser2
            have he : PyErr.assertionError = e := Except.error.inj hser2
            rw [← he]
            decide
      · rw [if_neg hm255] at hser2
        have he : PyErr.assertionError = e := Except.error.inj hser2
        rw [← he]
        decide

theorem bindOkEq {ε α β : Type} (a : α) (f : α → Except ε β) :
    (Except.ok a : Except ε α).bind f = f a := rfl

theorem mapNormalize_cons (domain : Option (PyNum × PyNum)) (a : NArr) (rest : List NArr) :
    mapNormalize domain (a :: rest) =
      (normalizeV a domain).bind fun b =>
        (mapNormalize domain rest).map fun bs => b :: bs := rfl

theorem normalizeV_shape_len {a b : NArr} {domain : Option (PyNum × PyNum)}
    (h : normalizeV a domain = .ok b) : b.shape.length ≤ 3 := by
  by_cases hrank : (a.shape.filter fun d => d ≠ 1).length ≤ 3
  · rw [(normalizeV_ok_inv h).2.1]
    exact hrank
  · rw [normalizeV_rank_fail a domain hrank] at h
    exact Except.noConfusion h

theorem normalizeV_renorm {a b : NArr} {domain : Option (PyNum × PyNum)}
    (h : normalizeV a domain = .ok b) :
    ∃ c : NArr, normalizeV b none = .ok c ∧ c.shape = b.shape := by
  obtain ⟨hdt, hsh, hlen, hane, hrange⟩ := normalizeV_ok_inv h
  have hfix : b.shape.filter (fun d => d ≠ 1) = b.shape := by
    refine List.filter_eq_self.mpr fun x hx => ?_
    rw [hsh] at hx
    exact (List.mem_filter.mp hx).2
  have hrank : (b.shape.filter fun d => d ≠ 1).length ≤ 3 := by
    rw [hfix]
    exact normalizeV_shape_len h
  have hbne : b.data ≠ [] := by
    intro hz
    rw [hz] at hlen
    exact hane (List.length_eq_zero.mp hlen.symm)
  obtain ⟨c, hok, _, hcsh, _, _⟩ := normalizeV_ok b none hrank hbne
  exact ⟨c, hok, by rw [hcsh, hfix]⟩

theorem mapNormalize_mem {domain : Option (PyNum × PyNum)} :
    ∀ {l l2 : List NArr}, mapNormalize domain l = .ok l2 →
      ∀ b ∈ l2, ∃ a, normalizeV a domain = .ok b := by
  intro l
  induction l with
  | nil =>
    intro l2 h b hb
    have hz : ([] : List NArr) = l2 := Except.ok.inj h
    subst hz
    exact absurd hb (List.not_mem_nil b)
  | cons a rest ih =>
    intro l2 h b hb
    rw [mapNormalize_cons] at h
    rcases ha : normalizeV a domain with e | c
    · rw [ha] at h
      exact Except.noConfusion h
    · rw [ha] at h
      rcases hr : mapNormalize domain rest with e | cs
      · rw [hr] at h
        exact Except.noConfusion h
      · rw [hr] at h
        have hcc : c :: cs = l2 := Except.ok.inj h
        subst hcc
        rcases List.mem_cons.mp hb with rfl | hb2
        · exact ⟨a, ha⟩
        · exact ih hr b hb2

theorem mapNormalize_all_ok (domain : Option (PyNum × PyNum)) :
    ∀ l : List NArr, (∀ b ∈ l, ∃ c, normalizeV b domain = .ok c ∧ c.shape = b.shape) →
      ∃ l2, mapNormalize domain l = .ok l2 ∧
        List.Forall₂ (fun b c => NArr.shape c = NArr.shape b) l l2 := by
  intro l
  induction l with
  | nil => exact fun _ => ⟨[], rfl, List.Forall₂.nil⟩
  | cons a rest ih =>
    intro h
    obtain ⟨c, hc, hcs⟩ := h a (List.mem_cons_self a rest)
    obtain ⟨l2, hl2, hrel⟩ := ih fun b hb => h b (List.mem_cons_of_mem a hb)
    refine ⟨c :: l2, ?_, List.Forall₂.cons hcs hrel⟩
    rw [mapNormalize_cons, hc, hl2]
    rfl

theorem numpy_image_to_video_ok (images : List NArr) (fps : ℕ) (filename : String)
    (h : ∀ b ∈ images, ∃ c, normalizeV b none = .ok c ∧ c.shape = b.shape)
    (hne : images ≠ []) (hsh3 : (images.headD dfltArr).shape.length = 3) :
    numpy_image_to_video images fps filename none = .ok [⟨filename, .mp4⟩] := by
  cases images with
  | nil => exact absurd rfl hne
  | cons a rest =>
    obtain ⟨l2, hl2, hrel⟩ := mapNormalize_all_ok none (a :: rest) h
    rcases hrel with _ | ⟨hsh0, hrest⟩
    unfold numpy_image_to_video
    rw [hl2, bindOkEq]
    simp only [List.headD_cons] at hsh3
    dsimp only
    rw [if_pos (by rw [hsh0]; exact hsh3)]

theorem numpy_image_to_gif_ok (images : List NArr) (filename : String)
    (h : ∀ b ∈ images, ∃ c, normalizeV b none = .ok c ∧ c.shape = b.shape)
    (hne : images ≠ []) :
    numpy_image_to_gif images filename none = .ok [⟨filename, .gif⟩] := by
  cases images with
  | nil => exact absurd rfl hne
  | cons a rest =>
    obtain ⟨l2, hl2, hrel⟩ := mapNormalize_all_ok none (a :: rest) h
    rcases hrel with _ | ⟨hsh0, hrest⟩
    unfold numpy_image_to_gif
    rw [hl2, bindOkEq]

theorem npStack_cons (a : NArr) (rest : List NArr) :
    npStack (a :: rest) =
      if rest.all fun b => b.shape == a.shape then
        .ok ⟨(a :: rest).length :: a.shape,
          ((a :: rest).map fun b => b.data).flatten, a.dtype⟩
      else .error .valueError := rfl

theorem npStack_ok (l : List NArr) (hne : l ≠ [])
    (hsh : ∀ b ∈ l, b.shape = (l.headD dfltArr).shape) :
    ∃ st, npStack l = .ok st := by
  cases l with
  | nil => exact absurd rfl hne
  | cons a rest =>
    have hc : (rest.all fun b => b.shape == a.shape) = true := by
      rw [List.all_eq_true]
      intro b hb
      exact beq_iff_eq.mpr (hsh b (List.mem_cons_of_mem a hb))
    refine ⟨⟨(a :: rest).length :: a.shape,
      ((a :: rest).map fun b => b.data).flatten, a.dtype⟩, ?_⟩
    rw [npStack_cons, if_pos hc]

/-- Claim C6 counterexample: save_images raises ValueError even when the piece
    of save_path after the last '.' IS one of the supported types — here "mp4",
    where numpy_image_to_video rejects a rank-2 image (the `h, w, _ =
    images[0].shape` unpacking fails), refuting the claimed "if and only if". -/
theorem save_images_mp4_valueerror_counterexample :
    (pySplitDot "a.mp4").getLastD "" = "mp4" ∧
    save_images [⟨[2, 2], [0, 1, 2, 3], .int64⟩] "a.mp4" none 5 =
      .error .valueError := ⟨rfl, rfl⟩

/-- Claim C6 (amended): once normalization of the images succeeds with a
    non-empty result, save_images dispatches on the piece of save_path after
    the last '.': it raises ValueError when that piece is none of npy, png,
    mp4, gif (writing nothing); for "npy" with equally shaped images it writes
    one .npy file via np.save; for "png" it writes one PNG file per image; for
    "mp4" with a rank-3 first image it writes one MP4 file; and for "gif" it
    writes one GIF file. -/
theorem save_images_dispatch_amended (images : List NArr) (path : String)
    (domain : Option (PyNum × PyNum)) (fps : ℕ) (nimgs : List NArr)
    (hn : mapNormalize domain images = .ok nimgs) (hne : nimgs ≠ []) :
    ((pySplitDot path).getLastD "" ∉ (["npy", "png", "mp4", "gif"] : List String) →
      save_images images path domain fps = .error .valueError) ∧
    ((pySplitDot path).getLastD "" = "npy" →
      (∀ b ∈ nimgs, b.shape = (nimgs.headD dfltArr).shape) →
      save_images images path domain fps = .ok [⟨npSavePath path, .npy⟩]) ∧
    ((pySplitDot path).getLastD "" = "png" →
      ∃ ws, save_images images path domain fps = .ok ws ∧ ws.length = nimgs.length ∧
        ∀ w ∈ ws, FileWrite.kind w = .png) ∧
    ((pySplitDot path).getLastD "" = "mp4" → (nimgs.headD dfltArr).shape.length = 3 →
      save_images images path domain fps = .ok [⟨path, .mp4⟩]) ∧
    ((pySplitDot path).getLastD "" = "gif" →
      save_images images path domain fps = .ok [⟨path, .gif⟩]) := by
  have hren : ∀ b ∈ nimgs, ∃ c, normalizeV b none = .ok c ∧ c.shape = b.shape := by
    intro b hb
    obtain ⟨a, ha⟩ := mapNormalize_mem hn b hb
    exact normalizeV_renorm ha
  refine ⟨?_, ?_, ?_, ?_, ?_⟩
  · intro hst
    simp only [List.mem_cons, List.not_mem_nil, or_false] at hst
    push_neg at hst
    obtain ⟨h1, h2, h3, h4⟩ := hst
    unfold save_images
    rw [hn, bindOkEq, if_neg h1, if_neg h2, if_neg h3, if_neg h4]
  · intro hst hall
    obtain ⟨st, hstk⟩ := npStack_ok nimgs hne hall
    unfold save_images
    rw [hn, bindOkEq, if_pos hst, hstk]
    rfl
  · intro hst
    have h1 : (pySplitDot path).getLastD "" ≠ "npy" := by rw [hst]; decide
    by_cases hl : nimgs.length = 1
    · refine ⟨[⟨pngBase path ++ ".png", .png⟩], ?_, ?_, ?_⟩
      · unfold save_images
        rw [hn, bindOkEq, if_neg h1, if_pos hst, if_pos hl]
      · simp [hl]
      · intro w hw
        simp only [List.mem_singleton] at hw
        rw [hw]
    · refine ⟨(List.range nimgs.length).map fun i =>
        ⟨pngBase path ++ "_" ++ toString i ++ ".png", .png⟩, ?_, ?_, ?_⟩
      · unfold save_images
        rw [hn, bindOkEq, if_neg h1, if_pos hst, if_neg hl]
      · rw [List.length_map, List.length_range]
      · intro w hw
        obtain ⟨i, _, rfl⟩ := List.mem_map.mp hw
        rfl
  · intro hst hsh3
    have h1 : (pySplitDot path).getLastD "" ≠ "npy" := by rw [hst]; decide
    have h2 : (pySplitDot path).getLastD "" ≠ "png" := by rw [hst]; decide
    unfold save_images
    rw [hn, bindOkEq, if_neg h1, if_neg h2, if_pos hst]
    exact numpy_image_to_video_ok nimgs fps path hren hne hsh3
  · intro hst
    have h1 : (pySplitDot path).getLastD "" ≠ "npy" := by rw [hst]; decide
    have h2 : (pySplitDot path).getLastD "" ≠ "png" := by rw [hst]; decide
    have h3 : (pySplitDot path).getLastD "" ≠ "mp4" := by rw [hst]; decide
    unfold save_images
    rw [hn, bindOkEq, if_neg h1, if_neg h2, if_neg h3, if_pos hst]
    exact numpy_image_to_gif_ok nimgs path hren hne

theorem save_images_dispatch_amended_witness :
    save_images [⟨[2, 2], [0, 1, 2, 3], .int64⟩] "a.gif" none 5 =
      .ok [⟨"a.gif", .gif⟩] ∧
    save_images [⟨[2, 2], [0, 1, 2, 3], .int64⟩] "a.xyz" none 5 =
      .error .valueError := by
  refine ⟨?_, ?_⟩
  · exact (save_images_dispatch_amended [⟨[2, 2], [0, 1, 2, 3], .int64⟩] "a.gif" none 5
      [⟨[2, 2], [0, 1, 2, 3], .uint8⟩] (by rfl) (List.cons_ne_nil _ _)).2.2.2.2 (by rfl)
  · exact (save_images_dispatch_amended [⟨[2, 2], [0, 1, 2, 3], .int64⟩] "a.xyz" none 5
      [⟨[2, 2], [0, 1, 2, 3], .uint8⟩] (by rfl) (List.cons_ne_nil _ _)).1 (by decide)

theorem okBindEq {ε α β : Type} (a : α) (f : α → Except ε β) :
    (Except.ok a : Except ε α) >>= f = f a := rfl

theorem cellFold_spec (env : IOEnv) (images : List NArr) (labels : List String)
    (domain : Option (PyNum × PyNum)) (width : Option ℕ) (fmt : String) (c i : ℕ)
    (hlab : images.length ≤ labels.length)
    (hs : ∀ idx, idx < images.length →
      ∃ s, _image_html env (images.getD idx dfltArr) width domain fmt
        (labels.getD idx "") = .ok s) :
    ∀ (js : List ℕ) (acc : String × List ℕ),
      ∃ s, js.foldlM (tableCellStep env images labels domain width fmt c i) acc =
        .ok (s, acc.2 ++ js.filterMap fun j =>
          if i * c + j < images.length then some (i * c + j) else none) := by
  intro js
  induction js with
  | nil => exact fun acc => ⟨acc.1, by simp; rfl⟩
  | cons j js ih =>
    intro acc
    rw [List.foldlM_cons]
    by_cases hidx : i * c + j < images.length
    · obtain ⟨s, hsok⟩ := hs (i * c + j) hidx
      have hstep : tableCellStep env images labels domain width fmt c i acc j =
          .ok (acc.1 ++ "<td style='text-align: center;'>" ++ s ++ "</td>",
            acc.2 ++ [i * c + j]) := by
        unfold tableCellStep
        rw [if_pos hidx, if_pos (lt_of_lt_of_le hidx hlab), hsok]
        rfl
      obtain ⟨s2, h2⟩ := ih (acc.1 ++ "<td style='text-align: center;'>" ++ s ++ "</td>",
        acc.2 ++ [i * c + j])
      refine ⟨s2, ?_⟩
      rw [hstep, okBindEq, h2]
      have hfm : ((j :: js).filterMap fun j =>
            if i * c + j < images.length then some (i * c + j) else none) =
          (i * c + j) :: js.filterMap fun j =>
            if i * c + j < images.length then some (i * c + j) else none := by
        rw [List.filterMap_cons, if_pos hidx]
      rw [hfm]
      simp [List.append_assoc]
    · have hstep : tableCellStep env images labels domain width fmt c i acc j =
          .ok acc := by
        unfold tableCellStep
        rw [if_neg hidx]
      obtain ⟨s2, h2⟩ := ih acc
      refine ⟨s2, ?_⟩
      rw [hstep, okBindEq, h2]
      have hfm : ((j :: js).filterMap fun j =>
            if i * c + j < images.length then some (i * c + j) else none) =
          js.filterMap fun j =>
            if i * c + j < images.length then some (i * c + j) else none := by
        rw [List.filterMap_cons, if_neg hidx]
      rw [hfm]

theorem rowFold_spec (env : IOEnv) (images : List NArr) (labels : List String)
    (domain : Option (PyNum × PyNum)) (width : Option ℕ) (fmt : String) (c : ℕ)
    (hlab : images.length ≤ labels.length)
    (hs : ∀ idx, idx < images.length →
      ∃ s, _image_html env (images.getD idx dfltArr) width domain fmt
        (labels.getD idx "") = .ok s) :
    ∀ (is : List ℕ) (acc : String × List ℕ),
      ∃ s, is.foldlM (tableRowStep env images labels domain width fmt c) acc =
        .ok (s, acc.2 ++ (is.map (tableRowIdxs images.length c)).flatten) := by
  intro is
  induction is with
  | nil => exact fun acc => ⟨acc.1, by simp; rfl⟩
  | cons i is ih =>
    intro acc
    rw [List.foldlM_cons]
    obtain ⟨s1, h1⟩ := cellFold_spec env images labels domain width fmt c i hlab hs
      (List.range c) (acc.1 ++ "<tr>", acc.2)
    have hstep : tableRowStep env images labels domain width fmt c acc i =
        .ok (s1 ++ "</tr>", acc.2 ++ tableRowIdxs images.length c i) := by
      unfold tableRowStep
      rw [h1]
      rfl
    obtain ⟨s2, h2⟩ := ih (s1 ++ "</tr>", acc.2 ++ tableRowIdxs images.length c i)
    refine ⟨s2, ?_⟩
    rw [hstep, okBindEq, h2]
    simp [List.append_assoc]

theorem filterMapGuardEq {α β : Type} (f : α → β) (p : β → Prop) [DecidablePred p] :
    ∀ l : List α, (l.filterMap fun j => if p (f j) then some (f j) else none) =
      (l.map f).filter fun x => decide (p x) := by
  intro l
  induction l with
  | nil => rfl
  | cons a l ih =>
    rw [List.filterMap_cons, List.map_cons, List.filter_cons]
    by_cases hp : p (f a)
    · simp [hp, ih]
    · simp [hp, ih]

theorem tableRowIdxs_eq (L c i : ℕ) :
    tableRowIdxs L c i =
      ((List.range c).map fun j => i * c + j).filter fun x => decide (x < L) :=
  filterMapGuardEq (fun j => i * c + j) (fun x => x < L) (List.range c)

theorem tableIdxs_eq (L c : ℕ) :
    ∀ r, tableIdxs L c r = (List.range (r * c)).filter fun x => decide (x < L) := by
  intro r
  induction r with
  | zero => simp [tableIdxs]
  | succ r ih =>
    have e1 : tableIdxs L c (r + 1) = tableIdxs L c r ++ tableRowIdxs L c r := by
      unfold tableIdxs
      rw [List.range_succ, List.map_append, List.flatten_append]
      simp
    rw [e1, ih, tableRowIdxs_eq]
    have e2 : (r + 1) * c = r * c + c := by ring
    rw [e2, List.range_add, List.filter_append]

theorem tableIdxs_mem (L c r k : ℕ) :
    k ∈ tableIdxs L c r ↔ k < r * c ∧ k < L := by
  rw [tableIdxs_eq, List.mem_filter, List.mem_range]
  simp

theorem tableIdxs_nodup (L c r : ℕ) : (tableIdxs L c r).Nodup := by
  rw [tableIdxs_eq]
  exact (List.nodup_range (r * c)).filter _

/-- Claim C10 counterexample: with five images and n_rows = 3 the table renders
    only the cells with index 0..3 — n_cols = 5 // 3 = 1, the bump gives 4 rows
    of 1 column, and image 4 never gets an <img> cell, although the list is
    non-empty and n_rows is positive. -/
theorem create_image_table_drops_image_counterexample :
    Except.map Prod.snd (_create_image_table trivialEncoder
      [⟨[2, 2], [0, 1, 2, 3], .int64⟩, ⟨[2, 2], [0, 1, 2, 3], .int64⟩,
       ⟨[2, 2], [0, 1, 2, 3], .int64⟩, ⟨[2, 2], [0, 1, 2, 3], .int64⟩,
       ⟨[2, 2], [0, 1, 2, 3], .int64⟩] ["0", "1", "2", "3", "4"] none none "png"
      (some 3)) = .ok [0, 1, 2, 3] := by rfl

/-- Claim C10 (amended): for a positive n_rows, labels covering the images
    (labels[idx] raises IndexError past its end, so a shorter labels list makes
    the loop raise instead) and images whose cells all render,
    _create_image_table renders each image index at most once (the rendered
    index list has no duplicates), and it renders exactly the indices below
    adjusted_rows * n_cols where n_cols = len // n_rows and adjusted_rows bumps
    n_rows by one when n_rows * n_cols < len — so an image is dropped whenever
    adjusted_rows * n_cols < len; show_images (with non-empty labels) renders
    exactly the same index list. -/
theorem create_image_table_coverage (env : IOEnv) (images : List NArr)
    (labels : List String) (domain : Option (PyNum × PyNum)) (width : Option ℕ)
    (fmt : String) (r0 : ℕ) (hr0 : r0 ≠ 0)
    (hlab : images.length ≤ labels.length)
    (hs : ∀ idx, idx < images.length →
      ∃ s, _image_html env (images.getD idx dfltArr) width domain fmt
        (labels.getD idx "") = .ok s) :
    ∃ html idxs,
      _create_image_table env images labels domain width fmt (some r0) =
        .ok (html, idxs) ∧
      idxs.Nodup ∧
      (∀ k, k ∈ idxs ↔
        (k < (if r0 * (images.length / r0) < images.length then r0 + 1 else r0) *
            (images.length / r0) ∧ k < images.length)) ∧
      (labels ≠ [] → ∃ html2,
        show_images env images (some labels) domain width fmt r0 =
          .ok (html2, idxs)) := by
  obtain ⟨s, hfold⟩ := rowFold_spec env images labels domain width fmt
    (images.length / r0) hlab hs
    (List.range (if r0 * (images.length / r0) < images.length then r0 + 1 else r0))
    (tableStyleHeader, ([] : List ℕ))
  have htab : _create_image_table env images labels domain width fmt (some r0) =
      .ok (s ++ "</table>",
        tableIdxs images.length (images.length / r0)
          (if r0 * (images.length / r0) < images.length then r0 + 1 else r0)) := by
    unfold _create_image_table
    dsimp only
    simp only [if_neg hr0]
    rw [hfold]
    rfl
  refine ⟨s ++ "</table>", _, htab, tableIdxs_nodup _ _ _,
    fun k => tableIdxs_mem _ _ _ k, ?_⟩
  intro hlne
  cases labels with
  | nil => exact absurd rfl hlne
  | cons al ls =>
    refine ⟨"<div style=\"display: flex; flex-direction: row;\">" ++
      "<div style=\"margin-right:10px; margin-top: 4px;\">" ++
      (s ++ "</table>") ++ "</div>" ++ "</div>", ?_⟩
    unfold show_images
    dsimp only
    rw [htab]
    rfl

theorem create_image_table_coverage_witness :
    ∃ html idxs,
      _create_image_table trivialEncoder
        [⟨[2, 2], [0, 1, 2, 3], .int64⟩, ⟨[2, 2], [0, 1, 2, 3], .int64⟩]
        ["a", "b"] none none "png" (some 1) = .ok (html, idxs) ∧
      idxs.Nodup ∧
      (∀ k, k ∈ idxs ↔
        (k < (if 1 * (2 / 1) < 2 then 1 + 1 else 1) * (2 / 1) ∧ k < 2)) ∧
      ((["a", "b"] : List String) ≠ [] → ∃ html2,
        show_images trivialEncoder
          [⟨[2, 2], [0, 1, 2, 3], .int64⟩, ⟨[2, 2], [0, 1, 2, 3], .int64⟩]
          (some ["a", "b"]) none none "png" 1 = .ok (html2, idxs)) :=
  create_image_table_coverage trivialEncoder
    [⟨[2, 2], [0, 1, 2, 3], .int64⟩, ⟨[2, 2], [0, 1, 2, 3], .int64⟩]
    ["a", "b"] none none "png" 1 (by decide) (by decide)
    (by
      intro idx hidx
      have h2 : idx < 2 := by simpa using hidx
      interval_cases idx
      · exact ⟨_, rfl⟩
      · exact ⟨_, rfl⟩)

theorem image_url_mode_check_witness :
    _image_url trivialEncoder ⟨[2, 2], [0, 1, 2, 3], .int64⟩ "png" "xyz" 90 none =
      .error .valueError ∧
    ∀ e, _image_url trivialEncoder ⟨[2, 2], [0, 1, 2, 3], .int64⟩ "png" "data" 90 none =
      .error e → e ≠ .valueError := by
  refine ⟨?_, ?_⟩
  · exact (image_url_mode_check trivialEncoder ⟨[2, 2], [0, 1, 2, 3], .int64⟩
      "png" "xyz" 90 none).1 (by decide)
  · exact (image_url_mode_check trivialEncoder ⟨[2, 2], [0, 1, 2, 3], .int64⟩
      "png" "data" 90 none).2 (by decide) (List.cons_ne_nil _ _)
